import Mathlib

/-!
Verification development for the crow-agent dark-mode transformation engine.

The TypeScript sources are embedded shallowly:

* `src/core/colors.ts` — token mapping table, `transformTailwindClass`,
  `getThemeSpecificMapping`, `transformExistingClasses`,
  `transformTailwindClasses`, `hasExistingDarkVariant`;
* `src/themes/presets.ts` — the preset catalog;
* `src/themes/rules.ts` and the theme-validation module —
  `THEME_QUALITY_RULES`, `validateTheme`, `getGradeFromScore`,
  `validateSingleTheme`, `getSeverityFromCategory`;
* the `BrandExtractor` and `PatternClassifier` classes;
* `src/adaptive/smart-recommender.ts` — `SmartThemeRecommender`;
* `src/core/transformer.ts` — `transformFiles` and the content-level
  class-attribute rewriting.

JavaScript strings are modelled by Lean `String` (in this toolchain a
wrapper around `List Char`); JS numbers that carry exact decimal data are
modelled by `ℚ`; external colour-math collaborators (`chroma`, contrast
ratios, hue/saturation/luminance) are parameters, as the specification
treats them as external pure functions.
-/

/-! ### Whitespace tokenisation

`classString.split(/\s+/).filter(Boolean)` and `array.join(' ')` from the
transformer, modelled on the character list underlying the string. -/

/-- Whitespace test used by the `\s` regex class (space, tab, CR, LF). -/
def isWS (c : Char) : Bool := c.isWhitespace

/-- Character-level model of `split(/\s+/).filter(Boolean)`: the maximal
runs of non-whitespace characters, in order. -/
def wordsC : List Char → List (List Char)
  | [] => []
  | c :: cs =>
    if isWS c then wordsC cs
    else
      match cs, wordsC cs with
      | [], _ => [[c]]
      | d :: _, tl =>
        if isWS d then [c] :: tl
        else
          match tl with
          | [] => [[c]]
          | w :: ws => (c :: w) :: ws

/-- Character-level model of `array.join(' ')`. -/
def joinC : List (List Char) → List Char
  | [] => []
  | [w] => w
  | w :: ws => w ++ ' ' :: joinC ws

/-- String-level `split(/\s+/).filter(Boolean)`. -/
def splitWs (s : String) : List String := (wordsC s.data).map String.mk

/-- String-level `join(' ')`. -/
def joinSpace (ts : List String) : String := String.mk (joinC (ts.map String.data))

theorem wordsC_nil : wordsC [] = [] := rfl

theorem wordsC_cons_ws (c : Char) (cs : List Char) (h : isWS c = true) :
    wordsC (c :: cs) = wordsC cs := by
  rw [wordsC.eq_def]; simp [h]

/-- Unfolding `wordsC` on a non-whitespace head in take/drop form. -/
theorem wordsC_cons_nonws (c : Char) (cs : List Char) (h : isWS c = false) :
    wordsC (c :: cs) =
      (c :: cs.takeWhile (fun d => !isWS d)) :: wordsC (cs.dropWhile (fun d => !isWS d)) := by
  induction cs generalizing c with
  | nil => simp [wordsC, h]
  | cons d ds ih =>
    by_cases hd : isWS d = true
    · rw [wordsC]
      simp [h, hd, List.takeWhile_cons, List.dropWhile_cons]
    · have hd2 : isWS d = false := by simpa using hd
      have ihd := ih d hd2
      rw [wordsC]
      simp only [h, Bool.false_eq_true, if_false, hd2, ihd,
        List.takeWhile_cons, List.dropWhile_cons, Bool.not_false, if_true]

theorem wordsC_sound_aux (n : ℕ) :
    ∀ (l : List Char), l.length ≤ n →
      ∀ w ∈ wordsC l, w ≠ [] ∧ ∀ c ∈ w, isWS c = false := by
  induction n with
  | zero =>
    intro l hl
    have : l = [] := List.length_eq_zero.mp (Nat.le_zero.mp hl)
    subst this
    simp [wordsC_nil]
  | succ n ih =>
    intro l hl
    match l with
    | [] => simp [wordsC_nil]
    | c :: cs =>
      have hcs : cs.length ≤ n := by simpa using hl
      by_cases hc : isWS c = true
      · rw [wordsC_cons_ws c cs hc]; exact ih cs hcs
      · have hc2 : isWS c = false := by simpa using hc
        rw [wordsC_cons_nonws c cs hc2]
        intro w hw
        rcases List.mem_cons.mp hw with rfl | hw2
        · refine ⟨by simp, ?_⟩
          intro d hd
          rcases List.mem_cons.mp hd with rfl | hd2
          · exact hc2
          · simpa using List.mem_takeWhile_imp hd2
        · have hdrop : (cs.dropWhile (fun d => !isWS d)).length ≤ n :=
            le_trans (List.dropWhile_sublist _).length_le hcs
          exact ih _ hdrop w hw2

/-- Every word produced by `wordsC` is nonempty and free of whitespace. -/
theorem wordsC_sound (l : List Char) :
    ∀ w ∈ wordsC l, w ≠ [] ∧ ∀ c ∈ w, isWS c = false :=
  wordsC_sound_aux l.length l le_rfl

theorem takeWhile_append_all {p : Char → Bool} {w l : List Char}
    (hw : ∀ c ∈ w, p c = true) :
    (w ++ l).takeWhile p = w ++ l.takeWhile p := by
  induction w with
  | nil => simp
  | cons c cs ih =>
    have hc : p c = true := hw c (by simp)
    simp only [List.cons_append, List.takeWhile_cons, hc, if_true]
    rw [ih (fun d hd => hw d (by simp [hd]))]

theorem dropWhile_append_all {p : Char → Bool} {w l : List Char}
    (hw : ∀ c ∈ w, p c = true) :
    (w ++ l).dropWhile p = l.dropWhile p := by
  induction w with
  | nil => simp
  | cons c cs ih =>
    have hc : p c = true := hw c (by simp)
    simp only [List.cons_append, List.dropWhile_cons, hc, if_true]
    exact ih (fun d hd => hw d (by simp [hd]))

/-- A nonempty whitespace-free word followed by nothing or by a whitespace
character is recovered whole by `wordsC`. -/
theorem wordsC_word_append (w l : List Char) (hne : w ≠ [])
    (hok : ∀ c ∈ w, isWS c = false)
    (hl : l = [] ∨ ∃ d ds, l = d :: ds ∧ isWS d = true) :
    wordsC (w ++ l) = w :: wordsC l := by
  obtain ⟨c, w', rfl⟩ := List.exists_cons_of_ne_nil hne
  have hc : isWS c = false := hok c (by simp)
  have hw' : ∀ d ∈ w', (fun d => !isWS d) d = true := by
    intro d hd; simp [hok d (by simp [hd])]
  have htake : (w' ++ l).takeWhile (fun d => !isWS d) = w' := by
    rw [takeWhile_append_all hw']
    rcases hl with rfl | ⟨d, ds, rfl, hd⟩
    · simp
    · simp [List.takeWhile_cons, hd]
  have hdrop : (w' ++ l).dropWhile (fun d => !isWS d) = l := by
    rw [dropWhile_append_all hw']
    rcases hl with rfl | ⟨d, ds, rfl, hd⟩
    · simp
    · simp [List.dropWhile_cons, hd]
  rw [List.cons_append, wordsC_cons_nonws c (w' ++ l) hc, htake, hdrop]

/-- Round trip: re-splitting the single-space join of a list of nonempty
whitespace-free words gives the words back. -/
theorem wordsC_joinC (ws : List (List Char))
    (h : ∀ w ∈ ws, w ≠ [] ∧ ∀ c ∈ w, isWS c = false) :
    wordsC (joinC ws) = ws := by
  induction ws with
  | nil => simp [joinC, wordsC_nil]
  | cons w ws ih =>
    match ws with
    | [] =>
      have hw := h w (by simp)
      have : wordsC (w ++ ([] : List Char)) = w :: wordsC [] :=
        wordsC_word_append w [] hw.1 hw.2 (Or.inl rfl)
      simpa [joinC, wordsC_nil] using this
    | w2 :: ws2 =>
      have hw := h w (by simp)
      have hrest : wordsC (joinC (w2 :: ws2)) = w2 :: ws2 :=
        ih (fun x hx => h x (by simp [hx]))
      have hstep : wordsC (w ++ ' ' :: joinC (w2 :: ws2)) =
          w :: wordsC (' ' :: joinC (w2 :: ws2)) :=
        wordsC_word_append w (' ' :: joinC (w2 :: ws2)) hw.1 hw.2
          (Or.inr ⟨' ', joinC (w2 :: ws2), rfl, by decide⟩)
      have hskip : wordsC (' ' :: joinC (w2 :: ws2)) = wordsC (joinC (w2 :: ws2)) :=
        wordsC_cons_ws ' ' _ (by decide)
      calc wordsC (joinC (w :: w2 :: ws2))
          = wordsC (w ++ ' ' :: joinC (w2 :: ws2)) := by rfl
        _ = w :: wordsC (' ' :: joinC (w2 :: ws2)) := hstep
        _ = w :: wordsC (joinC (w2 :: ws2)) := by rw [hskip]
        _ = w :: w2 :: ws2 := by rw [hrest]

theorem splitWs_joinSpace_splitWs (s : String) :
    splitWs (joinSpace (splitWs s)) = splitWs s := by
  unfold splitWs joinSpace
  have hdata : ((wordsC s.data).map String.mk).map String.data = wordsC s.data := by
    rw [List.map_map]
    exact List.map_id'' (fun _ => rfl) _
  rw [hdata, wordsC_joinC (wordsC s.data) (wordsC_sound s.data)]

/-- Every member word is a contiguous block of the join. -/
theorem mem_infix_joinC (w : List Char) (ws : List (List Char)) (hw : w ∈ ws) :
    w <:+: joinC ws := by
  induction ws with
  | nil => cases hw
  | cons x ws ih =>
    match ws with
    | [] =>
      rcases List.mem_singleton.mp hw with rfl
      simp [joinC]
    | y :: ws2 =>
      rcases List.mem_cons.mp hw with rfl | hmem
      · show w <:+: w ++ ' ' :: joinC (y :: ws2)
        exact ⟨[], ' ' :: joinC (y :: ws2), by simp⟩
      · have h1 : w <:+: joinC (y :: ws2) := ih hmem
        show w <:+: x ++ ' ' :: joinC (y :: ws2)
        have h2 : joinC (y :: ws2) <:+: x ++ ' ' :: joinC (y :: ws2) :=
          ⟨x ++ [' '], [], by simp⟩
        exact h1.trans h2

/-! ### Token Mapping Table (`src/core/colors.ts`) -/

/-- Association-list lookup modelling JS object / `Map` key access. -/
def alookup {β : Type} (k : String) : List (String × β) → Option β
  | [] => none
  | (k2, v) :: rest => if k = k2 then some v else alookup k rest

theorem alookup_mem {β : Type} {k : String} {v : β} :
    ∀ {l : List (String × β)}, alookup k l = some v → (k, v) ∈ l := by
  intro l
  induction l with
  | nil => intro h; cases h
  | cons p rest ih =>
    intro h
    by_cases hk : k = p.1
    · have : alookup k (p :: rest) = some p.2 := by
        cases p; simp [alookup, hk]
      rw [this] at h
      cases h
      cases p
      exact List.mem_cons.mpr (Or.inl (by simp [hk]))
    · refine List.mem_cons.mpr (Or.inr (ih ?_))
      cases p
      simpa [alookup, hk] using h

def backgroundMappings : List (String × String) :=
  [("bg-white", "bg-white dark:bg-gray-900"),
   ("bg-gray-50", "bg-gray-50 dark:bg-gray-800"),
   ("bg-gray-100", "bg-gray-100 dark:bg-gray-800"),
   ("bg-gray-200", "bg-gray-200 dark:bg-gray-700"),
   ("bg-gray-300", "bg-gray-300 dark:bg-gray-600"),
   ("bg-gray-400", "bg-gray-400 dark:bg-gray-500"),
   ("bg-gray-500", "bg-gray-500 dark:bg-gray-400"),
   ("bg-gray-600", "bg-gray-600 dark:bg-gray-300"),
   ("bg-gray-700", "bg-gray-700 dark:bg-gray-200"),
   ("bg-gray-800", "bg-gray-800 dark:bg-gray-100"),
   ("bg-gray-900", "bg-gray-900 dark:bg-white"),
   ("bg-slate-50", "bg-slate-50 dark:bg-slate-800"),
   ("bg-slate-100", "bg-slate-100 dark:bg-slate-800"),
   ("bg-slate-200", "bg-slate-200 dark:bg-slate-700"),
   ("bg-slate-300", "bg-slate-300 dark:bg-slate-600"),
   ("bg-slate-800", "bg-slate-800 dark:bg-slate-200"),
   ("bg-slate-900", "bg-slate-900 dark:bg-slate-100"),
   ("bg-zinc-50", "bg-zinc-50 dark:bg-zinc-800"),
   ("bg-zinc-100", "bg-zinc-100 dark:bg-zinc-800"),
   ("bg-zinc-200", "bg-zinc-200 dark:bg-zinc-700"),
   ("bg-zinc-800", "bg-zinc-800 dark:bg-zinc-200"),
   ("bg-zinc-900", "bg-zinc-900 dark:bg-zinc-100"),
   ("bg-neutral-50", "bg-neutral-50 dark:bg-neutral-800"),
   ("bg-neutral-100", "bg-neutral-100 dark:bg-neutral-800"),
   ("bg-neutral-200", "bg-neutral-200 dark:bg-neutral-700"),
   ("bg-neutral-800", "bg-neutral-800 dark:bg-neutral-200"),
   ("bg-neutral-900", "bg-neutral-900 dark:bg-neutral-100")]

def textMappings : List (String × String) :=
  [("text-black", "text-black dark:text-white"),
   ("text-white", "text-white dark:text-black"),
   ("text-gray-900", "text-gray-900 dark:text-gray-100"),
   ("text-gray-800", "text-gray-800 dark:text-gray-200"),
   ("text-gray-700", "text-gray-700 dark:text-gray-300"),
   ("text-gray-600", "text-gray-600 dark:text-gray-400"),
   ("text-gray-500", "text-gray-500 dark:text-gray-400"),
   ("text-gray-400", "text-gray-400 dark:text-gray-500"),
   ("text-gray-300", "text-gray-300 dark:text-gray-600"),
   ("text-gray-200", "text-gray-200 dark:text-gray-700"),
   ("text-gray-100", "text-gray-100 dark:text-gray-800"),
   ("text-slate-900", "text-slate-900 dark:text-slate-100"),
   ("text-slate-800", "text-slate-800 dark:text-slate-200"),
   ("text-slate-700", "text-slate-700 dark:text-slate-300"),
   ("text-slate-600", "text-slate-600 dark:text-slate-400"),
   ("text-slate-500", "text-slate-500 dark:text-slate-400"),
   ("text-slate-400", "text-slate-400 dark:text-slate-500"),
   ("text-slate-300", "text-slate-300 dark:text-slate-600"),
   ("text-slate-200", "text-slate-200 dark:text-slate-700"),
   ("text-slate-100", "text-slate-100 dark:text-slate-800"),
   ("text-zinc-900", "text-zinc-900 dark:text-zinc-100"),
   ("text-zinc-800", "text-zinc-800 dark:text-zinc-200"),
   ("text-zinc-700", "text-zinc-700 dark:text-zinc-300"),
   ("text-zinc-600", "text-zinc-600 dark:text-zinc-400"),
   ("text-zinc-500", "text-zinc-500 dark:text-zinc-400"),
   ("text-zinc-400", "text-zinc-400 dark:text-zinc-500"),
   ("text-zinc-300", "text-zinc-300 dark:text-zinc-600"),
   ("text-zinc-200", "text-zinc-200 dark:text-zinc-700"),
   ("text-zinc-100", "text-zinc-100 dark:text-zinc-800"),
   ("text-neutral-900", "text-neutral-900 dark:text-neutral-100"),
   ("text-neutral-800", "text-neutral-800 dark:text-neutral-200"),
   ("text-neutral-700", "text-neutral-700 dark:text-neutral-300"),
   ("text-neutral-600", "text-neutral-600 dark:text-neutral-400"),
   ("text-neutral-500", "text-neutral-500 dark:text-neutral-400"),
   ("text-neutral-400", "text-neutral-400 dark:text-neutral-500"),
   ("text-neutral-300", "text-neutral-300 dark:text-neutral-600"),
   ("text-neutral-200", "text-neutral-200 dark:text-neutral-700"),
   ("text-neutral-100", "text-neutral-100 dark:text-neutral-800")]

def borderMappings : List (String × String) :=
  [("border-gray-200", "border-gray-200 dark:border-gray-700"),
   ("border-gray-300", "border-gray-300 dark:border-gray-600"),
   ("border-gray-400", "border-gray-400 dark:border-gray-500"),
   ("border-gray-500", "border-gray-500 dark:border-gray-400"),
   ("border-gray-600", "border-gray-600 dark:border-gray-300"),
   ("border-gray-700", "border-gray-700 dark:border-gray-200"),
   ("border-slate-200", "border-slate-200 dark:border-slate-700"),
   ("border-slate-300", "border-slate-300 dark:border-slate-600"),
   ("border-slate-400", "border-slate-400 dark:border-slate-500"),
   ("border-slate-500", "border-slate-500 dark:border-slate-400"),
   ("border-slate-600", "border-slate-600 dark:border-slate-300"),
   ("border-slate-700", "border-slate-700 dark:border-slate-200"),
   ("border-zinc-200", "border-zinc-200 dark:border-zinc-700"),
   ("border-zinc-300", "border-zinc-300 dark:border-zinc-600"),
   ("border-zinc-700", "border-zinc-700 dark:border-zinc-200"),
   ("border-neutral-200", "border-neutral-200 dark:border-neutral-700"),
   ("border-neutral-300", "border-neutral-300 dark:border-neutral-600"),
   ("border-neutral-700", "border-neutral-700 dark:border-neutral-200")]

def ringMappings : List (String × String) :=
  [("ring-gray-500", "ring-gray-500 dark:ring-gray-400"),
   ("ring-blue-500", "ring-blue-500 dark:ring-blue-400"),
   ("ring-indigo-500", "ring-indigo-500 dark:ring-indigo-400"),
   ("ring-purple-500", "ring-purple-500 dark:ring-purple-400"),
   ("ring-pink-500", "ring-pink-500 dark:ring-pink-400"),
   ("ring-red-500", "ring-red-500 dark:ring-red-400"),
   ("ring-orange-500", "ring-orange-500 dark:ring-orange-400"),
   ("ring-amber-500", "ring-amber-500 dark:ring-amber-400"),
   ("ring-yellow-500", "ring-yellow-500 dark:ring-yellow-400"),
   ("ring-lime-500", "ring-lime-500 dark:ring-lime-400"),
   ("ring-green-500", "ring-green-500 dark:ring-green-400"),
   ("ring-emerald-500", "ring-emerald-500 dark:ring-emerald-400"),
   ("ring-teal-500", "ring-teal-500 dark:ring-teal-400"),
   ("ring-cyan-500", "ring-cyan-500 dark:ring-cyan-400"),
   ("ring-sky-500", "ring-sky-500 dark:ring-sky-400")]

def divideMappings : List (String × String) :=
  [("divide-gray-200", "divide-gray-200 dark:divide-gray-700"),
   ("divide-gray-300", "divide-gray-300 dark:divide-gray-600"),
   ("divide-slate-200", "divide-slate-200 dark:divide-slate-700"),
   ("divide-slate-300", "divide-slate-300 dark:divide-slate-600"),
   ("divide-zinc-200", "divide-zinc-200 dark:divide-zinc-700"),
   ("divide-neutral-200", "divide-neutral-200 dark:divide-neutral-700")]

def placeholderMappings : List (String × String) :=
  [("placeholder-gray-400", "placeholder-gray-400 dark:placeholder-gray-500"),
   ("placeholder-gray-500", "placeholder-gray-500 dark:placeholder-gray-400"),
   ("placeholder-slate-400", "placeholder-slate-400 dark:placeholder-slate-500"),
   ("placeholder-zinc-400", "placeholder-zinc-400 dark:placeholder-zinc-500"),
   ("placeholder-neutral-400", "placeholder-neutral-400 dark:placeholder-neutral-500")]

/-- The combined `colorMappings` object (the sub-objects have pairwise
distinct keys, so spread order does not matter for lookup). -/
def colorMappings : List (String × String) :=
  backgroundMappings ++ textMappings ++ borderMappings ++
    ringMappings ++ divideMappings ++ placeholderMappings

/-- `colorMappings[className]` access. -/
def lookupMapping (className : String) : Option String := alookup className colorMappings

/-! ### Preset catalog (`src/themes/presets.ts`) -/

structure ThemeColors where
  background : String
  foreground : String
  primary : String
  secondary : String
  accent : String
  muted : String
  border : String
deriving DecidableEq

structure ThemePreset where
  id : String
  name : String
  description : String
  light : ThemeColors
  dark : ThemeColors
deriving DecidableEq

def vercelPreset : ThemePreset :=
  { id := "vercel", name := "Vercel",
    description := "Clean black and white aesthetic with subtle grays",
    light := { background := "#ffffff", foreground := "#000000", primary := "#000000",
               secondary := "#666666", accent := "#0070f3", muted := "#fafafa",
               border := "#eaeaea" },
    dark := { background := "#000000", foreground := "#ffffff", primary := "#ffffff",
              secondary := "#888888", accent := "#0070f3", muted := "#111111",
              border := "#333333" } }

def supabasePreset : ThemePreset :=
  { id := "supabase", name := "Supabase",
    description := "Green-focused theme with modern gradients",
    light := { background := "#ffffff", foreground := "#1f2937", primary := "#10b981",
               secondary := "#6b7280", accent := "#3b82f6", muted := "#f9fafb",
               border := "#e5e7eb" },
    dark := { background := "#0f172a", foreground := "#f8fafc", primary := "#10b981",
              secondary := "#94a3b8", accent := "#3b82f6", muted := "#1e293b",
              border := "#334155" } }

def linearPreset : ThemePreset :=
  { id := "linear", name := "Linear",
    description := "Purple and blue gradient theme with clean typography",
    light := { background := "#ffffff", foreground := "#18181b", primary := "#8b5cf6",
               secondary := "#71717a", accent := "#6366f1", muted := "#fafafa",
               border := "#e4e4e7" },
    dark := { background := "#09090b", foreground := "#fafafa", primary := "#a78bfa",
              secondary := "#a1a1aa", accent := "#8b5cf6", muted := "#1c1c1f",
              border := "#27272a" } }

def openaiPreset : ThemePreset :=
  { id := "openai", name := "OpenAI",
    description := "Teal and warm theme inspired by ChatGPT",
    light := { background := "#ffffff", foreground := "#2d3748", primary := "#10a37f",
               secondary := "#718096", accent := "#3182ce", muted := "#f7fafc",
               border := "#e2e8f0" },
    dark := { background := "#1a202c", foreground := "#f7fafc", primary := "#10a37f",
              secondary := "#a0aec0", accent := "#3182ce", muted := "#2d3748",
              border := "#4a5568" } }

def customPreset : ThemePreset :=
  { id := "custom", name := "Custom Theme",
    description := "Configure your own colors manually",
    light := { background := "#ffffff", foreground := "#1f2937", primary := "#3b82f6",
               secondary := "#6b7280", accent := "#8b5cf6", muted := "#f9fafb",
               border := "#e5e7eb" },
    dark := { background := "#111827", foreground := "#f9fafb", primary := "#60a5fa",
              secondary := "#9ca3af", accent := "#a78bfa", muted := "#1f2937",
              border := "#374151" } }

/-- `BRAND_PRESETS`, keyed in insertion order. -/
def BRAND_PRESETS : List (String × ThemePreset) :=
  [("vercel", vercelPreset), ("supabase", supabasePreset), ("linear", linearPreset),
   ("openai", openaiPreset), ("custom", customPreset)]

def getThemePreset (id : String) : Option ThemePreset := alookup id BRAND_PRESETS

/-- `Object.values(BRAND_PRESETS)` in insertion order. -/
def getAllThemePresets : List ThemePreset :=
  [vercelPreset, supabasePreset, linearPreset, openaiPreset, customPreset]

/-! ### Theme-specific override resolver (`src/core/colors.ts`) -/

/-- Lowercase-hex lookup table inside `hexToTailwindClass`. -/
def hexColorMap : List (String × String) :=
  [("#000000", "black"), ("#ffffff", "white"), ("#0a0a0a", "black"),
   ("#fafafa", "gray-50"), ("#1a1a1a", "gray-800"), ("#2a2a2a", "gray-700"),
   ("#525252", "gray-500"), ("#a3a3a3", "gray-400"), ("#e5e5e5", "gray-300"),
   ("#0070f3", "blue-500"), ("#0084ff", "blue-400"),
   ("#059669", "green-600"), ("#10b981", "green-500"),
   ("#8b5cf6", "purple-500"), ("#a78bfa", "purple-400"),
   ("#0d9488", "teal-600"), ("#14b8a6", "teal-500")]

/-- `hexToTailwindClass(hex, prefix)`: empty string when the hex value is
unknown. -/
def toLowerStr (s : String) : String := String.mk (s.data.map Char.toLower)

def hexToTailwindClass (hex p : String) : String :=
  match alookup (toLowerStr hex) hexColorMap with
  | some c => p ++ "-" ++ c
  | none => ""

/-- JS `x || fallback` on strings: the empty string is falsy. -/
def jsOr (s d : String) : String := if s = "" then d else s

/-- The `themeColorMappings` object built inside `getThemeSpecificMapping`:
key, light half, dark half. -/
def themeColorMappingsFor (theme : ThemePreset) : List (String × String × String) :=
  [("bg-white", "bg-white", jsOr (hexToTailwindClass theme.dark.background "bg") "bg-gray-900"),
   ("bg-gray-50", "bg-gray-50", jsOr (hexToTailwindClass theme.dark.muted "bg") "bg-gray-800"),
   ("bg-gray-100", "bg-gray-100", jsOr (hexToTailwindClass theme.dark.muted "bg") "bg-gray-800"),
   ("bg-gray-900", "bg-gray-900", jsOr (hexToTailwindClass theme.dark.background "bg") "bg-white"),
   ("text-black", "text-black", jsOr (hexToTailwindClass theme.dark.foreground "text") "text-white"),
   ("text-white", "text-white", jsOr (hexToTailwindClass theme.dark.background "text") "text-black"),
   ("text-gray-900", "text-gray-900", jsOr (hexToTailwindClass theme.dark.foreground "text") "text-gray-100"),
   ("text-gray-600", "text-gray-600", jsOr (hexToTailwindClass theme.dark.secondary "text") "text-gray-400"),
   ("border-gray-200", "border-gray-200", jsOr (hexToTailwindClass theme.dark.border "border") "border-gray-700"),
   ("border-gray-300", "border-gray-300", jsOr (hexToTailwindClass theme.dark.border "border") "border-gray-600")]

/-- The `themeId === 'vercel'` switch. Cases the switch does not list fall
through to the generic `light dark:dark` string. -/
def vercelSwitch (className : String) : Option String :=
  alookup className
    [("bg-white", "bg-white dark:bg-black"),
     ("bg-gray-50", "bg-gray-50 dark:bg-gray-900"),
     ("bg-gray-100", "bg-gray-100 dark:bg-gray-900"),
     ("bg-gray-900", "bg-gray-900 dark:bg-white"),
     ("text-black", "text-black dark:text-white"),
     ("text-white", "text-white dark:text-black"),
     ("text-gray-900", "text-gray-900 dark:text-gray-100"),
     ("text-gray-600", "text-gray-600 dark:text-gray-300"),
     ("border-gray-200", "border-gray-200 dark:border-gray-800"),
     ("border-gray-300", "border-gray-300 dark:border-gray-700")]

/-- The `themeId === 'v0'` switch (OKLCH literal values). -/
def v0Switch (className : String) : Option String :=
  alookup className
    [("bg-white", "bg-white dark:bg-[oklch(0.145 0 0)]"),
     ("bg-gray-50", "bg-gray-50 dark:bg-[oklch(0.182 0 0)]"),
     ("bg-gray-100", "bg-gray-100 dark:bg-[oklch(0.182 0 0)]"),
     ("bg-gray-900", "bg-gray-900 dark:bg-[oklch(0.946 0 0)]"),
     ("text-gray-900", "text-gray-900 dark:text-[oklch(0.946 0 0)]"),
     ("text-gray-700", "text-gray-700 dark:text-[oklch(0.706 0 0)]"),
     ("text-gray-600", "text-gray-600 dark:text-[oklch(0.39 0 0)]"),
     ("border-gray-200", "border-gray-200 dark:border-[oklch(0.239 0 0)]")]

/-- The `themeId === 'linear'` switch (LCH literal values). -/
def linearSwitch (className : String) : Option String :=
  alookup className
    [("bg-white", "bg-white dark:bg-[lch(12.236 2.213 272.695)]"),
     ("bg-gray-50", "bg-gray-50 dark:bg-[lch(17.236 4.213 272.695)]"),
     ("bg-gray-100", "bg-gray-100 dark:bg-[lch(18.236 2.213 272.695)]"),
     ("bg-gray-200", "bg-gray-200 dark:bg-[lch(20.636 4.613 272.695)]"),
     ("text-gray-900", "text-gray-900 dark:text-[lch(91.024 1.106 272.695)]"),
     ("text-gray-700", "text-gray-700 dark:text-[lch(64.894 2.106 272.695)]"),
     ("text-gray-600", "text-gray-600 dark:text-[lch(64.094 1.106 272.695)]"),
     ("border-gray-200", "border-gray-200 dark:border-[lch(22.236 2.613 272.695)]")]

/-- The `themeId === 'supabase'` switch (hex literal values). -/
def supabaseSwitch (className : String) : Option String :=
  alookup className
    [("bg-white", "bg-white dark:bg-[#171717]"),
     ("bg-gray-50", "bg-gray-50 dark:bg-[#1F1F1F]"),
     ("bg-gray-100", "bg-gray-100 dark:bg-[#212121]"),
     ("bg-gray-900", "bg-gray-900 dark:bg-[#FAFAFA]"),
     ("text-gray-900", "text-gray-900 dark:text-[#FAFAFA]"),
     ("text-gray-700", "text-gray-700 dark:text-[#B4B4B4]"),
     ("text-gray-600", "text-gray-600 dark:text-[#898989]"),
     ("border-gray-200", "border-gray-200 dark:border-[#313131]"),
     ("border-gray-300", "border-gray-300 dark:border-[#454545]")]

/-- The `themeId === 'openai'` switch (hex literal values). -/
def openaiSwitch (className : String) : Option String :=
  alookup className
    [("bg-white", "bg-white dark:bg-[#0D0D0D]"),
     ("bg-gray-50", "bg-gray-50 dark:bg-[#171717]"),
     ("bg-gray-100", "bg-gray-100 dark:bg-[#212121]"),
     ("bg-gray-900", "bg-gray-900 dark:bg-[#F3F3F3]"),
     ("text-gray-900", "text-gray-900 dark:text-[#F3F3F3]"),
     ("text-gray-700", "text-gray-700 dark:text-[#AFAFAF]"),
     ("text-gray-600", "text-gray-600 dark:text-[#424242]"),
     ("border-gray-200", "border-gray-200 dark:border-[#303030]"),
     ("border-gray-300", "border-gray-300 dark:border-[#424242]")]

/-- `getThemeSpecificMapping(className, themeId)`. -/
def getThemeSpecificMapping (className : String) (themeId : String) : Option String :=
  match getThemePreset themeId with
  | none => none
  | some theme =>
    match alookup className (themeColorMappingsFor theme) with
    | none => none
    | some (lightV, darkV) =>
      let fallthrough := some (lightV ++ " dark:" ++ darkV)
      if themeId = "vercel" then
        match vercelSwitch className with
        | some r => some r
        | none => fallthrough
      else if themeId = "v0" then
        match v0Switch className with
        | some r => some r
        | none => fallthrough
      else if themeId = "linear" then
        match linearSwitch className with
        | some r => some r
        | none => fallthrough
      else if themeId = "supabase" then
        match supabaseSwitch className with
        | some r => some r
        | none => fallthrough
      else if themeId = "openai" then
        match openaiSwitch className with
        | some r => some r
        | none => fallthrough
      else fallthrough

/-! ### Class transformation (`src/core/colors.ts`) -/

/-- `transformTailwindClass(className, themeId?)`. -/
def transformTailwindClass (className : String) (themeId : Option String) : String :=
  match themeId with
  | some tid =>
    match getThemeSpecificMapping className tid with
    | some m => m
    | none => (lookupMapping className).getD className
  | none => (lookupMapping className).getD className

/-- Character list of the `'dark:'` marker. -/
def darkMarker : List Char := ['d', 'a', 'r', 'k', ':']

/-- `hasExistingDarkVariant(classString)` — `classString.includes('dark:')`. -/
def hasExistingDarkVariant (s : String) : Bool := decide (darkMarker <:+: s.data)

/-- `cls.startsWith('dark:')`. -/
def startsWithDark (s : String) : Bool := List.isPrefixOf darkMarker s.data

/-- The `while` loop body of `transformExistingClasses`, walking the token
list pairwise as in the source. -/
def walkExisting (tid : String) : List String → List String
  | [] => []
  | [cls] =>
    if startsWithDark cls = false then
      match getThemeSpecificMapping cls tid with
      | some m => [m]
      | none => [cls]
    else [cls]
  | cls :: next :: rest2 =>
    if startsWithDark cls = false then
      match getThemeSpecificMapping cls tid with
      | some m =>
        if startsWithDark next then m :: walkExisting tid rest2
        else m :: walkExisting tid (next :: rest2)
      | none => cls :: walkExisting tid (next :: rest2)
    else cls :: walkExisting tid (next :: rest2)

/-- `transformExistingClasses(classString, themeId?)`. -/
def transformExistingClasses (classString : String) (themeId : Option String) : String :=
  match themeId with
  | none => classString
  | some tid => joinSpace (walkExisting tid (splitWs classString))

/-- `transformTailwindClasses(classString, themeId?)`. -/
def transformTailwindClasses (classString : String) (themeId : Option String) : String :=
  if themeId.isSome && hasExistingDarkVariant classString then
    transformExistingClasses classString themeId
  else
    joinSpace ((splitWs classString).map (fun cls => transformTailwindClass cls themeId))

/-! ### Generic-transform lemmas -/

set_option maxRecDepth 40000 in
/-- Every value in the mapping table contains the `'dark:'` marker. -/
theorem colorMappings_values_dark : ∀ p ∈ colorMappings, darkMarker <:+: p.2.data := by
  decide

theorem mem_infix_joinSpace (t : String) (ts : List String) (ht : t ∈ ts) :
    t.data <:+: (joinSpace ts).data :=
  mem_infix_joinC t.data (ts.map String.data) (List.mem_map.mpr ⟨t, ht, rfl⟩)

theorem transform_none_eq_map (s : String) :
    transformTailwindClasses s none =
      joinSpace ((splitWs s).map (fun cls => transformTailwindClass cls none)) := by
  simp [transformTailwindClasses]

/-- If some token of the input is in the mapping table, the no-theme
transform output contains the `'dark:'` marker. -/
theorem hasDark_transform_of_mapped (s t v : String)
    (ht : t ∈ splitWs s) (hv : lookupMapping t = some v) :
    hasExistingDarkVariant (transformTailwindClasses s none) = true := by
  have hgv : transformTailwindClass t none = v := by
    simp [transformTailwindClass, hv]
  have hvmem : v ∈ (splitWs s).map (fun cls => transformTailwindClass cls none) :=
    List.mem_map.mpr ⟨t, ht, hgv⟩
  have hinf : v.data <:+:
      (joinSpace ((splitWs s).map (fun cls => transformTailwindClass cls none))).data :=
    mem_infix_joinSpace v _ hvmem
  have hdark : darkMarker <:+: v.data :=
    colorMappings_values_dark (t, v) (alookup_mem hv)
  rw [transform_none_eq_map s]
  exact decide_eq_true (hdark.trans hinf)

/-- If no token of the input is in the mapping table, the no-theme transform
only normalises whitespace. -/
theorem transform_none_all_unmapped (s : String)
    (h : ∀ t ∈ splitWs s, lookupMapping t = none) :
    transformTailwindClasses s none = joinSpace (splitWs s) := by
  rw [transform_none_eq_map s]
  congr 1
  calc (splitWs s).map (fun cls => transformTailwindClass cls none)
      = (splitWs s).map id := by
        apply List.map_congr_left
        intro t ht
        simp [transformTailwindClass, h t ht]
    _ = splitWs s := List.map_id _

/-- Core idempotence step: when the first pass introduced no `'dark:'`
marker, a second no-theme pass is the identity on the first pass's output. -/
theorem transform_none_second_pass (s : String)
    (h : hasExistingDarkVariant (transformTailwindClasses s none) = false) :
    transformTailwindClasses (transformTailwindClasses s none) none =
      transformTailwindClasses s none := by
  by_cases hm : ∀ t ∈ splitWs s, lookupMapping t = none
  · have h1 : transformTailwindClasses s none = joinSpace (splitWs s) :=
      transform_none_all_unmapped s hm
    have h2 : splitWs (transformTailwindClasses s none) = splitWs s := by
      rw [h1]; exact splitWs_joinSpace_splitWs s
    have h3 : ∀ t ∈ splitWs (transformTailwindClasses s none), lookupMapping t = none := by
      rw [h2]; exact hm
    rw [transform_none_all_unmapped _ h3, h2, ← h1]
  · push_neg at hm
    obtain ⟨t, ht, htv⟩ := hm
    obtain ⟨v, hv⟩ := Option.ne_none_iff_exists.mp htv
    rw [hasDark_transform_of_mapped s t v ht hv.symm] at h
    cases h

/-! ### Claims C1 and C2 -/

/-- The file-level guard from `src/core/transformer.ts` with no theme:
`shouldTransform = themeId || !hasExistingDarkVariant(classString)`. -/
def guardedTransform (s : String) : String :=
  if hasExistingDarkVariant s then s else transformTailwindClasses s none

/-- C1 counterexample: at the class-string level (`transformTailwindClasses`
with no themeId) the transform is not idempotent, and a string already
carrying `dark:bg-gray-900` is not returned unchanged — the mapped base
token `bg-white` is mapped again, appending a duplicate dark variant. -/
theorem transform_noTheme_not_idempotent :
    transformTailwindClasses "bg-white dark:bg-gray-900" none =
      "bg-white dark:bg-gray-900 dark:bg-gray-900" ∧
    transformTailwindClasses "bg-white dark:bg-gray-900" none ≠
      "bg-white dark:bg-gray-900" ∧
    transformTailwindClasses (transformTailwindClasses "bg-white" none) none ≠
      transformTailwindClasses "bg-white" none := by
  refine ⟨by decide, by decide, by decide⟩

/-- C1 (amended): idempotence holds for the guarded transform actually used
at the file level: any class string containing `'dark:'` is returned
unchanged, and applying the guarded no-theme transform twice equals applying
it once. -/
theorem guardedTransform_idempotent :
    (∀ s, hasExistingDarkVariant s = true → guardedTransform s = s) ∧
    (∀ s, guardedTransform (guardedTransform s) = guardedTransform s) := by
  constructor
  · intro s hs
    simp [guardedTransform, hs]
  · intro s
    by_cases hs : hasExistingDarkVariant s = true
    · simp [guardedTransform, hs]
    · have hs2 : hasExistingDarkVariant s = false := by simpa using hs
      have h1 : guardedTransform s = transformTailwindClasses s none := by
        simp [guardedTransform, hs2]
      rw [h1]
      by_cases ht : hasExistingDarkVariant (transformTailwindClasses s none) = true
      · simp [guardedTransform, ht]
      · have ht2 : hasExistingDarkVariant (transformTailwindClasses s none) = false := by
          simpa using ht
        simp only [guardedTransform, ht2, Bool.false_eq_true, if_false]
        exact transform_none_second_pass s ht2

theorem guardedTransform_idempotent_witness :
    hasExistingDarkVariant "bg-white dark:bg-gray-900" = true ∧
    guardedTransform "bg-white dark:bg-gray-900" = "bg-white dark:bg-gray-900" :=
  ⟨by decide, guardedTransform_idempotent.1 "bg-white dark:bg-gray-900" (by decide)⟩

/-- Spec-side formulation of §4.2 step 2: split on whitespace, send each
token through the Token Mapping Table, unknown tokens pass through, rejoin
in order. -/
def mapTokensIndependently (s : String) : String :=
  joinSpace ((splitWs s).map (fun t => (lookupMapping t).getD t))

/-- C2: with no themeId the transform maps each token independently through
the static table (unknown tokens unchanged, order preserved positionally),
the empty string maps to itself, and the scenario-1 string maps as stated. -/
theorem transform_noTheme_tokenwise :
    transformTailwindClasses "bg-white text-gray-900" none =
      "bg-white dark:bg-gray-900 text-gray-900 dark:text-gray-100" ∧
    transformTailwindClasses "" none = "" ∧
    ∀ s, transformTailwindClasses s none = mapTokensIndependently s := by
  refine ⟨by decide, by decide, ?_⟩
  intro s
  rw [transform_none_eq_map s]
  rfl

/-! ### Claim C3 — re-theming pairwise walk -/

/-- Spec-side formulation of §4.2 step 4, parametrised by the
theme-specific mapping `f`: a base (non-`dark:`) token with a mapping
immediately followed by a `dark:` token becomes the combined token with
both consumed; such a base token without a following `dark:` token becomes
the combined token alone; every other token passes through. -/
def specRethemeWalk (f : String → Option String) : List String → List String
  | [] => []
  | [t] =>
    match (if startsWithDark t then none else f t) with
    | some m => [m]
    | none => [t]
  | t :: next :: rest =>
    match (if startsWithDark t then none else f t) with
    | some m =>
      if startsWithDark next then m :: specRethemeWalk f rest
      else m :: specRethemeWalk f (next :: rest)
    | none => t :: specRethemeWalk f (next :: rest)

theorem walkExisting_eq_spec_aux (tid : String) (n : ℕ) :
    ∀ (l : List String), l.length ≤ n →
      walkExisting tid l = specRethemeWalk (fun c => getThemeSpecificMapping c tid) l := by
  induction n with
  | zero =>
    intro l hl
    have : l = [] := List.length_eq_zero.mp (Nat.le_zero.mp hl)
    subst this
    rfl
  | succ n ih =>
    intro l hl
    match l with
    | [] => rfl
    | [cls] =>
      by_cases hd : startsWithDark cls = true
      · simp [walkExisting, specRethemeWalk, hd]
      · have hd2 : startsWithDark cls = false := by simpa using hd
        cases hm : getThemeSpecificMapping cls tid with
        | some m => simp [walkExisting, specRethemeWalk, hd2, hm]
        | none => simp [walkExisting, specRethemeWalk, hd2, hm]
    | cls :: next :: rest2 =>
      have hlen1 : (next :: rest2).length ≤ n := by simpa using hl
      have hlen2 : rest2.length ≤ n := by simp at hl; omega
      by_cases hd : startsWithDark cls = true
      · simp [walkExisting, specRethemeWalk, hd, ih _ hlen1]
      · have hd2 : startsWithDark cls = false := by simpa using hd
        cases hm : getThemeSpecificMapping cls tid with
        | some m =>
          by_cases hn : startsWithDark next = true
          · simp [walkExisting, specRethemeWalk, hd2, hm, hn, ih _ hlen2]
          · have hn2 : startsWithDark next = false := by simpa using hn
            simp [walkExisting, specRethemeWalk, hd2, hm, hn2, ih _ hlen1]
        | none =>
          simp [walkExisting, specRethemeWalk, hd2, hm, ih _ hlen1]

theorem walkExisting_eq_spec (tid : String) (l : List String) :
    walkExisting tid l = specRethemeWalk (fun c => getThemeSpecificMapping c tid) l :=
  walkExisting_eq_spec_aux tid l.length l le_rfl

/-- C3: when a themeId is given and the class string already contains an
alternate-mode token, the transformer performs exactly the spec's pairwise
walk over the whitespace tokens, rejoined with single spaces. -/
theorem retheme_pairwise_walk (tid : String) (s : String)
    (h : hasExistingDarkVariant s = true) :
    transformTailwindClasses s (some tid) =
      joinSpace (specRethemeWalk (fun c => getThemeSpecificMapping c tid) (splitWs s)) := by
  unfold transformTailwindClasses
  simp only [Option.isSome_some, Bool.true_and, h, if_true]
  show joinSpace (walkExisting tid (splitWs s)) = _
  rw [walkExisting_eq_spec]

theorem retheme_pairwise_walk_witness :
    hasExistingDarkVariant "bg-white dark:bg-gray-900 p-4 text-gray-600" = true ∧
    transformTailwindClasses "bg-white dark:bg-gray-900 p-4 text-gray-600" (some "supabase") =
      joinSpace (specRethemeWalk (fun c => getThemeSpecificMapping c "supabase")
        (splitWs "bg-white dark:bg-gray-900 p-4 text-gray-600")) ∧
    transformTailwindClasses "bg-white dark:bg-gray-900 p-4 text-gray-600" (some "supabase") =
      "bg-white dark:bg-[#171717] p-4 text-gray-600 dark:text-[#898989]" :=
  ⟨by decide,
   retheme_pairwise_walk "supabase" "bg-white dark:bg-gray-900 p-4 text-gray-600" (by decide),
   by decide⟩

/-! ### Theme quality validator (`src/themes/rules.ts` and the validation
module)

The WCAG contrast computation (`calculateContrastRatio`, floating-point
gamma math) is the external colour collaborator of §1 of the spec; it is a
parameter `contrast` here. The `suggestions` free-text list of
`validateSingleTheme` is not modelled; no claim mentions it. -/

def ContrastFn : Type := String → String → ℚ

inductive Severity
  | error
  | warning
  | info
deriving DecidableEq

inductive RuleCategory
  | color
  | contrast
  | harmony
  | semantic
  | animation
deriving DecidableEq

structure RuleOutcome where
  passed : Bool
  message : String
  suggestion : Option String
deriving DecidableEq

structure ThemeRule where
  id : String
  category : RuleCategory
  validate : ThemePreset → RuleOutcome

/-- `Math.round(q)`. -/
def jsRound (q : ℚ) : ℤ := (q + 1/2).floor

theorem jsRound_eq_floor (q : ℚ) : jsRound q = ⌊q + 1/2⌋ := by
  rw [jsRound, Rat.floor_def', Rat.floor_def]

/-- Model of `Number.prototype.toFixed(1)` used in the rule messages. -/
def toFixed1 (q : ℚ) : String :=
  let n : ℤ := jsRound (q * 10)
  if n < 0 then "-" ++ Nat.repr (n.natAbs / 10) ++ "." ++ Nat.repr (n.natAbs % 10)
  else Nat.repr (n.toNat / 10) ++ "." ++ Nat.repr (n.toNat % 10)

/-- Rule `contrast-aa-text`. -/
def contrastAaTextRule (contrast : ContrastFn) : ThemeRule :=
  { id := "contrast-aa-text", category := .contrast,
    validate := fun theme =>
      let lightRatio := contrast theme.light.foreground theme.light.background
      let darkRatio := contrast theme.dark.foreground theme.dark.background
      let passed := decide (4.5 ≤ lightRatio) && decide (4.5 ≤ darkRatio)
      { passed := passed,
        message :=
          if passed then "Text contrast meets WCAG AA standards"
          else "Text contrast too low: Light(" ++ toFixed1 lightRatio ++ ":1), Dark(" ++
            toFixed1 darkRatio ++ ":1)",
        suggestion :=
          if passed then none else some "Adjust foreground colors for better contrast" } }

/-- Rule `contrast-button-text`. -/
def contrastButtonTextRule (contrast : ContrastFn) : ThemeRule :=
  { id := "contrast-button-text", category := .contrast,
    validate := fun theme =>
      let lightRatio := contrast "#ffffff" theme.light.primary
      let darkRatio := contrast "#ffffff" theme.dark.primary
      let passed := decide (3 ≤ lightRatio) && decide (3 ≤ darkRatio)
      { passed := passed,
        message :=
          if passed then "Button text contrast is adequate"
          else "Button contrast too low: Light(" ++ toFixed1 lightRatio ++ ":1), Dark(" ++
            toFixed1 darkRatio ++ ":1)",
        suggestion :=
          if passed then none else some "Use darker primary colors or lighter button text" } }

/-- Rule `color-harmony-primary-accent`. -/
def harmonyPrimaryAccentRule : ThemeRule :=
  { id := "color-harmony-primary-accent", category := .harmony,
    validate := fun theme =>
      let passed := decide (theme.light.primary ≠ theme.light.accent)
      { passed := passed,
        message :=
          if passed then "Primary and accent colors are distinct"
          else "Primary and accent colors are identical",
        suggestion :=
          if passed then none else some "Choose different colors for primary and accent" } }

/-- Rule `semantic-muted-lightness` (always passes in the source). -/
def semanticMutedRule : ThemeRule :=
  { id := "semantic-muted-lightness", category := .semantic,
    validate := fun _ =>
      { passed := true, message := "Muted colors are appropriately lighter/darker",
        suggestion := none } }

/-- Rule `semantic-border-subtlety`. -/
def semanticBorderRule : ThemeRule :=
  { id := "semantic-border-subtlety", category := .semantic,
    validate := fun theme =>
      let passed := decide (theme.light.border ≠ theme.light.foreground) &&
        decide (theme.dark.border ≠ theme.dark.foreground)
      { passed := passed,
        message :=
          if passed then "Border colors are appropriately subtle"
          else "Border colors too similar to text",
        suggestion := if passed then none else some "Make border colors more subtle" } }

/-- Rule `animation-duration-consistency` (always passes in the source). -/
def animationDurationRule : ThemeRule :=
  { id := "animation-duration-consistency", category := .animation,
    validate := fun _ =>
      { passed := true, message := "Animation durations are consistent",
        suggestion := none } }

/-- `THEME_QUALITY_RULES`, in source order. -/
def THEME_QUALITY_RULES (contrast : ContrastFn) : List ThemeRule :=
  [contrastAaTextRule contrast, contrastButtonTextRule contrast,
   harmonyPrimaryAccentRule, semanticMutedRule, semanticBorderRule,
   animationDurationRule]

structure ValidateThemeResult where
  passed : Bool
  score : ℤ
  results : List (ThemeRule × RuleOutcome)

/-- `validateTheme(theme)`. -/
def validateTheme (contrast : ContrastFn) (theme : ThemePreset) : ValidateThemeResult :=
  let results := (THEME_QUALITY_RULES contrast).map (fun r => (r, r.validate theme))
  let passedRules : ℕ := (results.filter (fun p => p.2.passed)).length
  let totalRules : ℕ := results.length
  let score : ℤ := jsRound ((passedRules : ℚ) / (totalRules : ℚ) * 100)
  { passed := decide (80 ≤ score), score := score, results := results }

inductive Grade
  | Aplus
  | A
  | Bplus
  | B
  | Cplus
  | C
  | D
  | F
deriving DecidableEq

/-- `getGradeFromScore(score)`. -/
def getGradeFromScore (score : ℤ) : Grade :=
  if 97 ≤ score then .Aplus
  else if 93 ≤ score then .A
  else if 90 ≤ score then .Bplus
  else if 87 ≤ score then .B
  else if 83 ≤ score then .Cplus
  else if 80 ≤ score then .C
  else if 70 ≤ score then .D
  else .F

/-- Numeric rank of a grade, for stating monotonicity (F lowest). -/
def gradeRank : Grade → ℕ
  | .F => 0
  | .D => 1
  | .C => 2
  | .Cplus => 3
  | .B => 4
  | .Bplus => 5
  | .A => 6
  | .Aplus => 7

/-- `getSeverityFromCategory(category)`. -/
def getSeverityFromCategory : RuleCategory → Severity
  | .contrast => .error
  | .color => .warning
  | .semantic => .warning
  | _ => .info

structure ValidationIssue where
  category : RuleCategory
  severity : Severity
  message : String
  suggestion : Option String

structure ThemeValidationResult where
  theme : ThemePreset
  score : ℤ
  grade : Grade
  passed : Bool
  issues : List ValidationIssue

/-- `validateSingleTheme(theme)`. -/
def validateSingleTheme (contrast : ContrastFn) (theme : ThemePreset) : ThemeValidationResult :=
  let validation := validateTheme contrast theme
  let grade := getGradeFromScore validation.score
  let issues := (validation.results.filter (fun p => !p.2.passed)).map (fun p =>
    { category := p.1.category,
      severity := getSeverityFromCategory p.1.category,
      message := jsOr p.2.message "Validation failed",
      suggestion := p.2.suggestion })
  { theme := theme, score := validation.score, grade := grade,
    passed := validation.passed, issues := issues }

/-! ### Claim C4 — contrast failures and severity -/

theorem validateSingleTheme_issues (contrast : ContrastFn) (theme : ThemePreset) :
    (validateSingleTheme contrast theme).issues =
      ((validateTheme contrast theme).results.filter (fun p => !p.2.passed)).map
        (fun p =>
          { category := p.1.category,
            severity := getSeverityFromCategory p.1.category,
            message := jsOr p.2.message "Validation failed",
            suggestion := p.2.suggestion }) := rfl

theorem contrast_msg_ne_empty (x y : String) :
    ("Text contrast too low: Light(" ++ x ++ ":1), Dark(" ++ y ++ ":1)") ≠ "" := by
  intro he
  have h1 : ("Text contrast too low: Light(" ++ x ++ ":1), Dark(" ++ y ++ ":1)").data.head? =
      some 'T' := rfl
  rw [he] at h1
  exact Option.noConfusion h1

unseal Rat.add Rat.mul Rat.inv Rat.sub Rat.ofScientific in
theorem toFixed1_three : toFixed1 3 = "3.0" := by decide

theorem dark_contrast_not_ge (x : ℚ) (hx : x = 3) : (decide ((4.5:ℚ) ≤ x)) = false := by
  subst hx
  rw [decide_eq_false_iff_not]
  norm_num

/-- C4 (amended): a preset whose light foreground/background contrast is 3.0
produces an issue of severity `error` for the `contrast-aa-text` rule whose
message contains the formatted measured ratio `3.0`; and generally every
failing contrast-category rule is reported with severity `error`. (The
claim's further assertion `passed = false` is refuted by
`validator_single_contrast_failure_passes`: with only this one of the six
rules failing the score is 83 ≥ 80, so `passed` stays `true`.) -/
theorem failing_contrast_reported_as_error (contrast : ContrastFn) (theme : ThemePreset)
    (h : contrast theme.light.foreground theme.light.background = 3) :
    (∀ iss ∈ (validateSingleTheme contrast theme).issues,
        iss.category = RuleCategory.contrast → iss.severity = Severity.error) ∧
    (∃ iss ∈ (validateSingleTheme contrast theme).issues,
        iss.category = RuleCategory.contrast ∧ iss.severity = Severity.error ∧
        ("3.0" : String).data <:+: iss.message.data) := by
  constructor
  · intro iss hiss hcat
    rw [validateSingleTheme_issues] at hiss
    obtain ⟨p, _, rfl⟩ := List.mem_map.mp hiss
    simp only at hcat
    simp only [hcat]
    rfl
  · have h45 : (decide ((4.5:ℚ) ≤ contrast theme.light.foreground theme.light.background)) =
        false := dark_contrast_not_ge _ h
    have houtcome : (contrastAaTextRule contrast).validate theme =
        { passed := false,
          message := "Text contrast too low: Light(" ++
            toFixed1 (contrast theme.light.foreground theme.light.background) ++ ":1), Dark(" ++
            toFixed1 (contrast theme.dark.foreground theme.dark.background) ++ ":1)",
          suggestion := some "Adjust foreground colors for better contrast" } := by
      simp only [contrastAaTextRule, h45, Bool.false_and, Bool.false_eq_true, if_false]
    have hrulemem : contrastAaTextRule contrast ∈ THEME_QUALITY_RULES contrast := by
      simp [THEME_QUALITY_RULES]
    have hpairmem : (contrastAaTextRule contrast, (contrastAaTextRule contrast).validate theme) ∈
        (validateTheme contrast theme).results :=
      List.mem_map.mpr ⟨contrastAaTextRule contrast, hrulemem, rfl⟩
    have hfiltmem : (contrastAaTextRule contrast, (contrastAaTextRule contrast).validate theme) ∈
        (validateTheme contrast theme).results.filter (fun p => !p.2.passed) :=
      List.mem_filter.mpr ⟨hpairmem, by rw [houtcome]; rfl⟩
    refine ⟨_, by rw [validateSingleTheme_issues]; exact List.mem_map.mpr ⟨_, hfiltmem, rfl⟩,
      rfl, rfl, ?_⟩
    show ("3.0" : String).data <:+:
      (jsOr ((contrastAaTextRule contrast).validate theme).message "Validation failed").data
    rw [houtcome]
    show ("3.0" : String).data <:+: (jsOr ("Text contrast too low: Light(" ++
      toFixed1 (contrast theme.light.foreground theme.light.background) ++ ":1), Dark(" ++
      toFixed1 (contrast theme.dark.foreground theme.dark.background) ++ ":1)")
      "Validation failed").data
    rw [h, toFixed1_three]
    rw [jsOr, if_neg (contrast_msg_ne_empty _ _)]
    have hsplit : ("Text contrast too low: Light(" ++ "3.0" ++ ":1), Dark(" ++
        toFixed1 (contrast theme.dark.foreground theme.dark.background) ++ ":1)").data =
        ("Text contrast too low: Light(" : String).data ++ ("3.0" : String).data ++
          (":1), Dark(" ++ toFixed1 (contrast theme.dark.foreground theme.dark.background) ++
            ":1)").data := by
      simp only [String.data_append, List.append_assoc]
    rw [hsplit]
    exact List.infix_append _ _ _

theorem failing_contrast_reported_as_error_witness :
    ∃ iss ∈ (validateSingleTheme (fun _ _ => 3) vercelPreset).issues,
      iss.category = RuleCategory.contrast ∧ iss.severity = Severity.error ∧
      ("3.0" : String).data <:+: iss.message.data :=
  (failing_contrast_reported_as_error (fun _ _ => 3) vercelPreset rfl).2

/-- Concrete theme preset and contrast oracle for the C4 counterexample:
only the light foreground/background pair has ratio 3; everything else has
ratio 21, so exactly one of the six rules fails. -/
def c4Preset : ThemePreset :=
  { id := "c4", name := "C4", description := "counterexample preset",
    light := { background := "#ffffff", foreground := "#111111", primary := "#2563eb",
               secondary := "#666666", accent := "#8b5cf6", muted := "#fafafa",
               border := "#eaeaea" },
    dark := { background := "#000000", foreground := "#ffffff", primary := "#60a5fa",
              secondary := "#888888", accent := "#a78bfa", muted := "#111111",
              border := "#333333" } }

def c4Contrast : ContrastFn := fun a b =>
  if a = "#111111" && b = "#ffffff" then 3 else 21

unseal Rat.add Rat.mul Rat.inv Rat.sub Rat.ofScientific in
/-- C4 counterexample: a preset whose light foreground/background contrast
is 3.0 (below 4.5) but which passes the other five rules gets score 83 and
`passed = true`, contradicting the claim's `passed = false`. -/
theorem validator_single_contrast_failure_passes :
    c4Contrast c4Preset.light.foreground c4Preset.light.background = 3 ∧
    ((3:ℚ) < 4.5) = True ∧
    (validateSingleTheme c4Contrast c4Preset).passed = true ∧
    (validateSingleTheme c4Contrast c4Preset).score = 83 := by
  refine ⟨by decide, by simp; decide, by decide, by decide⟩

/-! ### Claim C5 — score, passed threshold, grade bands -/

set_option maxHeartbeats 1600000 in
/-- C5: the score is `round(100 × passedRuleCount / totalRuleCount)` over
the six rules, `passed` holds exactly when the score is at least 80, the
reported grade is `getGradeFromScore score`, the grade bands over `[0,100]`
are ≥97 A+, ≥93 A, ≥90 B+, ≥87 B, ≥83 C+, ≥80 C, ≥70 D, else F (so the
grade is single-valued — `getGradeFromScore` is a function), and the grade
rank is monotonically non-decreasing in the score. -/
theorem validator_score_grade_consistency :
    (∀ (contrast : ContrastFn) (theme : ThemePreset),
      (validateTheme contrast theme).results.length = 6 ∧
      (validateTheme contrast theme).score =
        jsRound (100 * ((((validateTheme contrast theme).results.filter
            (fun p => p.2.passed)).length : ℚ) /
          (((validateTheme contrast theme).results.length : ℚ)))) ∧
      ((validateTheme contrast theme).passed = true ↔
        80 ≤ (validateTheme contrast theme).score) ∧
      (validateSingleTheme contrast theme).grade =
        getGradeFromScore (validateSingleTheme contrast theme).score) ∧
    (∀ s : ℕ, s ≤ 100 →
      (97 ≤ (s:ℤ) → getGradeFromScore (s:ℤ) = Grade.Aplus) ∧
      (93 ≤ (s:ℤ) → (s:ℤ) < 97 → getGradeFromScore (s:ℤ) = Grade.A) ∧
      (90 ≤ (s:ℤ) → (s:ℤ) < 93 → getGradeFromScore (s:ℤ) = Grade.Bplus) ∧
      (87 ≤ (s:ℤ) → (s:ℤ) < 90 → getGradeFromScore (s:ℤ) = Grade.B) ∧
      (83 ≤ (s:ℤ) → (s:ℤ) < 87 → getGradeFromScore (s:ℤ) = Grade.Cplus) ∧
      (80 ≤ (s:ℤ) → (s:ℤ) < 83 → getGradeFromScore (s:ℤ) = Grade.C) ∧
      (70 ≤ (s:ℤ) → (s:ℤ) < 80 → getGradeFromScore (s:ℤ) = Grade.D) ∧
      ((s:ℤ) < 70 → getGradeFromScore (s:ℤ) = Grade.F)) ∧
    (∀ s : ℕ, s ≤ 100 → ∀ t : ℕ, t ≤ 100 → s ≤ t →
      gradeRank (getGradeFromScore (s:ℤ)) ≤ gradeRank (getGradeFromScore (t:ℤ))) := by
  refine ⟨?_, ?_, ?_⟩
  · intro contrast theme
    refine ⟨rfl, congrArg jsRound (mul_comm _ _), ?_, rfl⟩
    show decide (80 ≤ (validateTheme contrast theme).score) = true ↔
      80 ≤ (validateTheme contrast theme).score
    exact decide_eq_true_iff
  · intro s _
    unfold getGradeFromScore
    refine ⟨?_, ?_, ?_, ?_, ?_, ?_, ?_, ?_⟩ <;> intros <;> split_ifs <;>
      first | rfl | omega
  · intro s _ t _ hst
    have hst2 : (s:ℤ) ≤ (t:ℤ) := by exact_mod_cast hst
    unfold getGradeFromScore
    split_ifs <;> simp only [gradeRank] <;> omega

theorem validator_score_grade_consistency_witness :
    ((validateTheme (fun _ _ => 21) vercelPreset).passed = true ↔
      80 ≤ (validateTheme (fun _ _ => 21) vercelPreset).score) ∧
    getGradeFromScore ((97:ℕ):ℤ) = Grade.Aplus ∧
    gradeRank (getGradeFromScore ((75:ℕ):ℤ)) ≤ gradeRank (getGradeFromScore ((85:ℕ):ℤ)) :=
  ⟨(validator_score_grade_consistency.1 (fun _ _ => 21) vercelPreset).2.2.1,
   (validator_score_grade_consistency.2.1 97 (by decide)).1 (by decide),
   validator_score_grade_consistency.2.2 75 (by decide) 85 (by decide) (by decide)⟩

/-! ### Brand colour extractor (`BrandExtractor`)

`chroma`'s `hsl.s` saturation, `luminance()` and `hsl.h` hue are the
external colour collaborators; they appear as parameters `sat`, `lum`,
`hue`. A project's literal colour occurrences are modelled as the list of
`(file path, normalised colour value)` pairs that `extractColorsFromContent`
feeds into the shared `colorMap` (normalisation `chroma(color).hex()` is
external). -/

inductive BrandColorType
  | primary
  | secondary
  | accent
  | neutral
deriving DecidableEq

structure ExtractedBrandColor where
  color : String
  usage : ℕ
  locations : List String
  saturation : ℚ
  luminance : ℚ
  type : BrandColorType
deriving DecidableEq

structure ColorMapData where
  value : String
  usage : ℕ
  locations : List String
deriving DecidableEq

inductive Temperature
  | warm
  | cool
  | neutral
deriving DecidableEq

def minSaturation : ℚ := 0.2

def minUsage : ℕ := 2

/-- `isValidBrandColor(color)`. -/
def isValidBrandColor (sat lum : String → ℚ) (color : String) : Bool :=
  decide (minSaturation ≤ sat color) && decide ((0.1:ℚ) < lum color) &&
    decide (lum color < (0.9:ℚ))

/-- `if (!existing.locations.includes(filePath)) existing.locations.push(filePath)`. -/
def addLocation (locs : List String) (path : String) : List String :=
  if path ∈ locs then locs else locs ++ [path]

/-- One `colorMap` update: bump the usage of `value`, recording `path`; a
`Map` keeps the key's original insertion position, so an association list
updated in place models it. -/
def bumpColor (m : List ColorMapData) (path value : String) : List ColorMapData :=
  match m with
  | [] => [⟨value, 1, [path]⟩]
  | e :: rest =>
    if e.value = value then
      ⟨e.value, e.usage + 1, addLocation e.locations path⟩ :: rest
    else e :: bumpColor rest path value

/-- The accumulated `colorMap` over all literal colour occurrences, with the
`isValidBrandColor` filter applied at insertion as in
`extractColorsFromContent`. -/
def buildColorMap (sat lum : String → ℚ) (occs : List (String × String)) :
    List ColorMapData :=
  occs.foldl
    (fun m occ => if isValidBrandColor sat lum occ.2 then bumpColor m occ.1 occ.2 else m) []

/-- `processExtractedColors(colorMap)`: keep entries with usage ≥ minUsage,
attach saturation/luminance, sort descending by `usage × saturation`
(`Array.prototype.sort` is stable; insertion sort is a stable model). -/
def processExtractedColors (sat lum : String → ℚ) (m : List ColorMapData) :
    List ExtractedBrandColor :=
  List.insertionSort (fun a b => b.usage * b.saturation ≤ a.usage * a.saturation)
    ((m.filter (fun e => minUsage ≤ e.usage)).map (fun e =>
      ⟨e.value, e.usage, e.locations, sat e.value, lum e.value, BrandColorType.neutral⟩))

/-- The `for (let i = 2; i < Math.min(colors.length, 5); i++)` accent loop. -/
def accentify : ℕ → List ExtractedBrandColor → List ExtractedBrandColor
  | _, [] => []
  | i, c :: cs =>
    (if i < 5 ∧ (0.6:ℚ) < c.saturation then { c with type := BrandColorType.accent } else c) ::
      accentify (i + 1) cs

/-- `classifyColors(colors)`. -/
def classifyColors : List ExtractedBrandColor → List ExtractedBrandColor
  | [] => []
  | [p] => [{ p with type := BrandColorType.primary }]
  | p :: s :: rest =>
    { p with type := BrandColorType.primary } ::
      { s with type := BrandColorType.secondary } :: accentify 2 rest

/-- The per-colour temperature bucket of `analyzeTemperature`. -/
def tempOf (hue : String → ℚ) (c : ExtractedBrandColor) : Temperature :=
  let h := hue c.color
  if (0 ≤ h ∧ h ≤ 60) ∨ (300 ≤ h ∧ h ≤ 360) then .warm
  else if 120 ≤ h ∧ h ≤ 240 then .cool
  else .neutral

/-- `analyzeTemperature(colors)`: majority bucket; the `reduce` over
`Object.keys(counts)` visits buckets in first-occurrence order. -/
def analyzeTemperature (hue : String → ℚ) (colors : List ExtractedBrandColor) : Temperature :=
  match colors with
  | [] => .neutral
  | _ =>
    let temps := colors.map (tempOf hue)
    let keys := temps.foldl (fun ks t => if t ∈ ks then ks else ks ++ [t]) []
    let count := fun t => temps.countP (fun x => decide (x = t))
    match keys with
    | [] => .neutral
    | k :: ks => ks.foldl (fun a b => if count b < count a then a else b) k

/-- `BrandExtractor.calculateConfidence(colors)`. -/
def brandCalculateConfidence : List ExtractedBrandColor → ℚ
  | [] => 0
  | c :: _ =>
    (min ((c.usage : ℚ) / 10) 1 + c.saturation + min ((c.locations.length : ℚ) / 3) 1) / 3

structure BrandColorProfile where
  primary : Option ExtractedBrandColor
  secondary : Option ExtractedBrandColor
  accent : Option ExtractedBrandColor
  palette : List ExtractedBrandColor
  temperature : Temperature
  confidence : ℚ

/-- `createBrandProfile(colors)`. -/
def createBrandProfile (hue : String → ℚ) (colors : List ExtractedBrandColor) :
    BrandColorProfile :=
  let classified := classifyColors colors
  { primary := classified.find? (fun c => decide (c.type = BrandColorType.primary)),
    secondary := classified.find? (fun c => decide (c.type = BrandColorType.secondary)),
    accent := classified.find? (fun c => decide (c.type = BrandColorType.accent)),
    palette := classified,
    temperature := analyzeTemperature hue classified,
    confidence := brandCalculateConfidence classified }

/-- `extractBrandColors` restricted to the literal-colour pipeline. -/
def extractBrandColorsModel (sat lum hue : String → ℚ) (occs : List (String × String)) :
    BrandColorProfile :=
  createBrandProfile hue (processExtractedColors sat lum (buildColorMap sat lum occs))

/-! ### Claim C6 — extraction threshold law -/

/-- The usage count the `colorMap` records for value `v` (0 when absent). -/
def usageIn (m : List ColorMapData) (v : String) : ℕ :=
  match m.find? (fun e => decide (e.value = v)) with
  | some e => e.usage
  | none => 0

theorem bumpColor_usage_self (m : List ColorMapData) (p v : String) :
    usageIn (bumpColor m p v) v = usageIn m v + 1 := by
  induction m with
  | nil => simp [bumpColor, usageIn, List.find?]
  | cons e rest ih =>
    by_cases he : e.value = v
    · simp [bumpColor, he, usageIn, List.find?]
    · simp only [bumpColor, he, if_false]
      simp only [usageIn, List.find?, decide_eq_true_eq] at ih ⊢
      simp [he, ih]

theorem bumpColor_usage_other (m : List ColorMapData) (p w v : String) (hvw : v ≠ w) :
    usageIn (bumpColor m p w) v = usageIn m v := by
  have hwv : ¬ (w = v) := fun h => hvw h.symm
  induction m with
  | nil => simp [bumpColor, usageIn, List.find?, hwv]
  | cons e rest ih =>
    by_cases he : e.value = w
    · have hev : ¬ (e.value = v) := by rw [he]; exact hwv
      simp [bumpColor, he, usageIn, List.find?, hwv]
    · simp only [bumpColor, he, if_false]
      by_cases hev : e.value = v
      · simp [usageIn, List.find?, hev]
      · simp only [usageIn, List.find?] at ih ⊢
        simp [hev, ih]

theorem buildColorMap_usage_aux (sat lum : String → ℚ) (v : String) :
    ∀ (occs : List (String × String)) (m : List ColorMapData),
      usageIn (occs.foldl (fun m occ =>
          if isValidBrandColor sat lum occ.2 then bumpColor m occ.1 occ.2 else m) m) v =
        usageIn m v +
          (if isValidBrandColor sat lum v then
            (occs.filter (fun o => decide (o.2 = v))).length else 0) := by
  intro occs
  induction occs with
  | nil => intro m; simp
  | cons o os ih =>
    intro m
    obtain ⟨op, ov⟩ := o
    by_cases hov : ov = v
    · subst hov
      have hflt : (((op, ov) :: os).filter (fun o => decide (o.2 = ov))).length =
          (os.filter (fun o => decide (o.2 = ov))).length + 1 := by
        simp [List.filter_cons]
      by_cases hval : isValidBrandColor sat lum ov = true
      · rw [List.foldl_cons]
        simp only [hval, if_true]
        rw [ih, bumpColor_usage_self, hflt]
        simp only [hval, if_true]
        omega
      · have hval2 : isValidBrandColor sat lum ov = false := by simpa using hval
        rw [List.foldl_cons]
        simp only [hval2, Bool.false_eq_true, if_false]
        rw [ih]
        simp [hval2]
    · have hfilter : (((op, ov) :: os).filter (fun o => decide (o.2 = v))) =
          os.filter (fun o => decide (o.2 = v)) := by
        simp [List.filter_cons, hov]
      rw [List.foldl_cons]
      by_cases hvo : isValidBrandColor sat lum ov = true
      · simp only [hvo, if_true]
        rw [ih, hfilter, bumpColor_usage_other _ _ _ _ (fun h => hov h.symm)]
      · have hvo2 : isValidBrandColor sat lum ov = false := by simpa using hvo
        simp only [hvo2, Bool.false_eq_true, if_false]
        rw [ih, hfilter]

theorem buildColorMap_usage (sat lum : String → ℚ) (occs : List (String × String))
    (v : String) :
    usageIn (buildColorMap sat lum occs) v =
      (if isValidBrandColor sat lum v then
        (occs.filter (fun o => decide (o.2 = v))).length else 0) := by
  have := buildColorMap_usage_aux sat lum v occs []
  simpa [buildColorMap, usageIn, List.find?] using this

theorem bumpColor_values (m : List ColorMapData) (p w : String) :
    (bumpColor m p w).map (fun e => e.value) =
      if w ∈ m.map (fun e => e.value) then m.map (fun e => e.value)
      else m.map (fun e => e.value) ++ [w] := by
  induction m with
  | nil => simp [bumpColor]
  | cons e rest ih =>
    by_cases he : e.value = w
    · simp [bumpColor, he]
    · have hwe : ¬ (w = e.value) := fun h => he h.symm
      simp only [bumpColor, he, if_false, List.map_cons, ih, List.mem_cons]
      by_cases hw : w ∈ rest.map (fun e => e.value)
      · simp [hw, hwe]
      · simp [hw, hwe]

theorem buildColorMap_nodup_aux (sat lum : String → ℚ) :
    ∀ (occs : List (String × String)) (m : List ColorMapData),
      ((m.map (fun e => e.value)).Nodup) →
      (((occs.foldl (fun m occ =>
          if isValidBrandColor sat lum occ.2 then bumpColor m occ.1 occ.2 else m) m).map
            (fun e => e.value)).Nodup) := by
  intro occs
  induction occs with
  | nil => intro m hm; simpa using hm
  | cons o os ih =>
    intro m hm
    simp only [List.foldl_cons]
    by_cases hvo : isValidBrandColor sat lum o.2 = true
    · simp only [hvo, if_true]
      apply ih
      rw [bumpColor_values]
      by_cases hw : o.2 ∈ m.map (fun e => e.value)
      · simpa [hw] using hm
      · simp only [hw, if_false]
        simp [List.nodup_append, hm, hw]
    · have hvo2 : isValidBrandColor sat lum o.2 = false := by simpa using hvo
      simp only [hvo2, Bool.false_eq_true, if_false]
      exact ih m hm

theorem buildColorMap_nodup (sat lum : String → ℚ) (occs : List (String × String)) :
    (((buildColorMap sat lum occs).map (fun e => e.value)).Nodup) :=
  buildColorMap_nodup_aux sat lum occs [] (by simp)

theorem find_of_mem_nodup {m : List ColorMapData}
    (hnd : (m.map (fun e => e.value)).Nodup) {e : ColorMapData} (he : e ∈ m) :
    m.find? (fun x => decide (x.value = e.value)) = some e := by
  induction m with
  | nil => cases he
  | cons x rest ih =>
    rcases List.mem_cons.mp he with rfl | hrest
    · simp [List.find?]
    · have hx : x.value ≠ e.value := by
        intro hxe
        have : e.value ∈ rest.map (fun e => e.value) :=
          List.mem_map.mpr ⟨e, hrest, rfl⟩
        rw [← hxe] at this
        exact (List.nodup_cons.mp hnd).1 this
      simp only [List.find?, hx, decide_eq_true_eq, if_false]
      exact ih (List.nodup_cons.mp hnd).2 hrest

theorem accentify_colors (l : List ExtractedBrandColor) :
    ∀ i, (accentify i l).map (fun e => e.color) = l.map (fun e => e.color) := by
  induction l with
  | nil => intro i; rfl
  | cons c cs ih =>
    intro i
    by_cases hc : i < 5 ∧ (0.6:ℚ) < c.saturation
    · simp [accentify, hc, ih]
    · simp [accentify, hc, ih]

theorem classifyColors_colors (l : List ExtractedBrandColor) :
    (classifyColors l).map (fun e => e.color) = l.map (fun e => e.color) := by
  match l with
  | [] => rfl
  | [p] => rfl
  | p :: s :: rest => simp [classifyColors, accentify_colors]

theorem mem_palette_iff (sat lum hue : String → ℚ) (occs : List (String × String))
    (v : String) :
    v ∈ (extractBrandColorsModel sat lum hue occs).palette.map (fun e => e.color) ↔
      ∃ e ∈ buildColorMap sat lum occs, minUsage ≤ e.usage ∧ e.value = v := by
  show v ∈ (classifyColors (processExtractedColors sat lum
      (buildColorMap sat lum occs))).map (fun e => e.color) ↔ _
  rw [classifyColors_colors]
  unfold processExtractedColors
  rw [List.Perm.mem_iff (List.Perm.map _ (List.perm_insertionSort _ _))]
  rw [List.map_map]
  constructor
  · intro hv
    obtain ⟨e, he, hev⟩ := List.mem_map.mp hv
    have := List.mem_filter.mp he
    exact ⟨e, this.1, by simpa using this.2, hev⟩
  · intro ⟨e, he, hu, hev⟩
    exact List.mem_map.mpr ⟨e, List.mem_filter.mpr ⟨he, by simpa using hu⟩, hev⟩

/-- C6: a literal colour value occurring exactly `minUsage − 1` (= 1) times
never appears in the returned palette; a value occurring at least
`minUsage` times whose saturation is at least `minSaturation` (0.2) and
whose luminance lies strictly between 0.1 and 0.9 always appears in the
returned palette. -/
theorem brand_extraction_threshold (sat lum hue : String → ℚ)
    (occs : List (String × String)) (v : String) :
    (((occs.filter (fun o => decide (o.2 = v))).length = minUsage - 1) →
      v ∉ (extractBrandColorsModel sat lum hue occs).palette.map (fun e => e.color)) ∧
    ((minUsage ≤ (occs.filter (fun o => decide (o.2 = v))).length →
      minSaturation ≤ sat v → (0.1:ℚ) < lum v → lum v < (0.9:ℚ) →
      v ∈ (extractBrandColorsModel sat lum hue occs).palette.map (fun e => e.color))) := by
  constructor
  · intro hcnt hmem
    rw [mem_palette_iff] at hmem
    obtain ⟨e, hem, huse, hval⟩ := hmem
    have hfind : (buildColorMap sat lum occs).find? (fun x => decide (x.value = e.value)) =
        some e := find_of_mem_nodup (buildColorMap_nodup sat lum occs) hem
    have husage : usageIn (buildColorMap sat lum occs) e.value = e.usage := by
      unfold usageIn
      rw [hfind]
    rw [hval] at husage
    rw [buildColorMap_usage] at husage
    rw [hcnt] at husage
    by_cases hv : isValidBrandColor sat lum v = true
    · rw [if_pos hv] at husage
      rw [← husage] at huse
      simp [minUsage] at huse
    · rw [if_neg hv] at husage
      rw [← husage] at huse
      simp [minUsage] at huse
  · intro hcnt hs h1 h9
    have hv : isValidBrandColor sat lum v = true := by
      simp [isValidBrandColor, hs, h1, h9]
    have husage : usageIn (buildColorMap sat lum occs) v =
        (occs.filter (fun o => decide (o.2 = v))).length := by
      rw [buildColorMap_usage, if_pos hv]
    have hpos : 1 ≤ usageIn (buildColorMap sat lum occs) v := by
      rw [husage]
      exact le_trans (by simp [minUsage]) hcnt
    obtain ⟨e, hfind⟩ : ∃ e, (buildColorMap sat lum occs).find?
        (fun x => decide (x.value = v)) = some e := by
      unfold usageIn at hpos
      cases hcase : (buildColorMap sat lum occs).find? (fun x => decide (x.value = v)) with
      | some e => exact ⟨e, rfl⟩
      | none => rw [hcase] at hpos; cases hpos
    have hev : e.value = v := by
      have := List.find?_some hfind
      simpa using this
    have hem : e ∈ buildColorMap sat lum occs := List.mem_of_find?_eq_some hfind
    have heu : e.usage = (occs.filter (fun o => decide (o.2 = v))).length := by
      have : usageIn (buildColorMap sat lum occs) v = e.usage := by
        unfold usageIn
        rw [hfind]
      rw [← this, husage]
    rw [mem_palette_iff]
    exact ⟨e, hem, by rw [heu]; exact hcnt, hev⟩

unseal Rat.add Rat.mul Rat.inv Rat.sub Rat.ofScientific in
theorem brand_extraction_threshold_witness :
    ("#8b5cf6" ∈ (extractBrandColorsModel (fun _ => 1) (fun _ => mkRat 1 2) (fun _ => 270)
        [("a.ts", "#8b5cf6"), ("b.ts", "#8b5cf6")]).palette.map (fun e => e.color)) ∧
    ("#abcdef" ∉ (extractBrandColorsModel (fun _ => 1) (fun _ => mkRat 1 2) (fun _ => 270)
        [("a.ts", "#abcdef")]).palette.map (fun e => e.color)) :=
  ⟨(brand_extraction_threshold (fun _ => 1) (fun _ => mkRat 1 2) (fun _ => 270)
      [("a.ts", "#8b5cf6"), ("b.ts", "#8b5cf6")] "#8b5cf6").2
    (by decide) (by decide) (by decide) (by decide),
   (brand_extraction_threshold (fun _ => 1) (fun _ => mkRat 1 2) (fun _ => 270)
      [("a.ts", "#abcdef")] "#abcdef").1 (by decide)⟩

/-! ### Project archetype classifier (`PatternClassifier`) and claim C7 -/

structure DesignFeatures where
  framework : String
  componentCount : ℕ
  colorComplexity : ℚ
  spacingPatterns : ℚ
  typographyVariance : ℚ
  componentComplexity : ℚ

/-- `scoreCorporate(features)`. -/
def scoreCorporate (f : DesignFeatures) : ℚ :=
  (if f.colorComplexity < 0.3 then (0.25:ℚ) else 0) +
  (if 0.7 < f.spacingPatterns then (0.25:ℚ) else 0) +
  (if f.typographyVariance < 0.4 then (0.25:ℚ) else 0) +
  (if f.componentComplexity < 0.5 then (0.25:ℚ) else 0)

/-- `scoreModern(features)`. -/
def scoreModern (f : DesignFeatures) : ℚ :=
  (if 0.3 ≤ f.colorComplexity ∧ f.colorComplexity ≤ 0.6 then (0.25:ℚ) else 0) +
  (if 0.8 < f.spacingPatterns then (0.25:ℚ) else 0) +
  (if f.framework = "react" ∨ f.framework = "nextjs" then (0.25:ℚ) else 0) +
  (if 10 < f.componentCount then (0.25:ℚ) else 0)

/-- `scoreDevToolPatterns(features)`. -/
def scoreDevToolPatterns (f : DesignFeatures) : ℚ :=
  min ((if 20 < f.componentCount then (0.3:ℚ) else 0) +
    (if 0.7 < f.componentComplexity then (0.4:ℚ) else 0) +
    (if 0.5 < f.colorComplexity then (0.3:ℚ) else 0)) 1

/-- `scoreDeveloper(features)`. -/
def scoreDeveloper (f : DesignFeatures) : ℚ :=
  min ((if 0.6 < f.colorComplexity then (0.25:ℚ) else 0) +
    (if 0.6 < f.componentComplexity then (0.25:ℚ) else 0) +
    (if f.framework = "vue" ∨ f.framework = "nuxt" then (0.1:ℚ) else 0) +
    scoreDevToolPatterns f * 0.4) 1

/-- `scoreCreative(features)`. -/
def scoreCreative (f : DesignFeatures) : ℚ :=
  (if 0.7 < f.colorComplexity then (0.3:ℚ) else 0) +
  (if 0.6 < f.typographyVariance then (0.3:ℚ) else 0) +
  (if 0.5 < f.componentComplexity then (0.2:ℚ) else 0) +
  (if 15 < f.componentCount then (0.2:ℚ) else 0)

inductive Archetype
  | corporate
  | modern
  | developer
  | creative
deriving DecidableEq

def scoreOf (f : DesignFeatures) : Archetype → ℚ
  | .corporate => scoreCorporate f
  | .modern => scoreModern f
  | .developer => scoreDeveloper f
  | .creative => scoreCreative f

/-- One step of the `Object.keys(scores).reduce` argmax:
`scores[a] > scores[b] ? a : b`. -/
def pickBetter (f : DesignFeatures) (a b : Archetype) : Archetype :=
  if scoreOf f b < scoreOf f a then a else b

/-- `classifyArchetype(features)`: the reduce over the key order
corporate, modern, developer, creative. -/
def classifyArchetype (f : DesignFeatures) : Archetype :=
  pickBetter f (pickBetter f (pickBetter f .corporate .modern) .developer) .creative

/-- `Math.max` over the scores of the other three archetypes. -/
def maxOtherScore (f : DesignFeatures) : Archetype → ℚ
  | .corporate => max (max (scoreOf f .modern) (scoreOf f .developer)) (scoreOf f .creative)
  | .modern => max (max (scoreOf f .corporate) (scoreOf f .developer)) (scoreOf f .creative)
  | .developer => max (max (scoreOf f .corporate) (scoreOf f .modern)) (scoreOf f .creative)
  | .creative => max (max (scoreOf f .corporate) (scoreOf f .modern)) (scoreOf f .developer)

/-- `PatternClassifier.calculateConfidence(features, archetype)`. -/
def calculateConfidence (f : DesignFeatures) (a : Archetype) : ℚ :=
  min (scoreOf f a - maxOtherScore f a + 0.5) 1

theorem classify_is_max (f : DesignFeatures) (a : Archetype) :
    scoreOf f a ≤ scoreOf f (classifyArchetype f) := by
  unfold classifyArchetype pickBetter
  cases a <;> split_ifs <;> first | rfl | linarith

theorem maxOther_le_winner (f : DesignFeatures) :
    maxOtherScore f (classifyArchetype f) ≤ scoreOf f (classifyArchetype f) := by
  have h1 := classify_is_max f .corporate
  have h2 := classify_is_max f .modern
  have h3 := classify_is_max f .developer
  have h4 := classify_is_max f .creative
  cases hc : classifyArchetype f <;>
    · rw [hc] at h1 h2 h3 h4
      simp only [maxOtherScore]
      exact max_le (max_le (by linarith) (by linarith)) (by linarith)

/-- C7: the archetype confidence computed for the classifier's winner equals
`winnerScore − bestOtherScore + 0.5` clamped to `[0,1]`, and lies in
`[0,1]`; the brand confidence is 0 on an empty palette and, whenever the
primary candidate's saturation lies in `[0,1]` (chroma's `hsl.s` range),
the averaged usage/saturation/location score also lies in `[0,1]`. -/
theorem confidence_bounds :
    (∀ f : DesignFeatures,
      calculateConfidence f (classifyArchetype f) =
        max 0 (min (scoreOf f (classifyArchetype f) -
          maxOtherScore f (classifyArchetype f) + 0.5) 1) ∧
      0 ≤ calculateConfidence f (classifyArchetype f) ∧
      calculateConfidence f (classifyArchetype f) ≤ 1) ∧
    brandCalculateConfidence [] = 0 ∧
    (∀ colors : List ExtractedBrandColor,
      (∀ c ∈ colors, 0 ≤ c.saturation ∧ c.saturation ≤ 1) →
      0 ≤ brandCalculateConfidence colors ∧ brandCalculateConfidence colors ≤ 1) := by
  refine ⟨?_, rfl, ?_⟩
  · intro f
    have hwin := maxOther_le_winner f
    have hlow : (0:ℚ) ≤ min (scoreOf f (classifyArchetype f) -
        maxOtherScore f (classifyArchetype f) + 0.5) 1 :=
      le_min (by linarith) (by norm_num)
    refine ⟨?_, ?_, ?_⟩
    · unfold calculateConfidence
      rw [max_eq_right hlow]
    · unfold calculateConfidence
      exact hlow
    · unfold calculateConfidence
      exact min_le_right _ _
  · intro colors h
    match colors with
    | [] => simp [brandCalculateConfidence]
    | c :: rest =>
      have hc := h c (by simp)
      unfold brandCalculateConfidence
      have h1 : (0:ℚ) ≤ min ((c.usage : ℚ) / 10) 1 := le_min (by positivity) (by norm_num)
      have h2 : min ((c.usage : ℚ) / 10) 1 ≤ 1 := min_le_right _ _
      have h3 : (0:ℚ) ≤ min ((c.locations.length : ℚ) / 3) 1 :=
        le_min (by positivity) (by norm_num)
      have h4 : min ((c.locations.length : ℚ) / 3) 1 ≤ 1 := min_le_right _ _
      constructor <;> · simp only; linarith [hc.1, hc.2]

theorem confidence_bounds_witness :
    0 ≤ brandCalculateConfidence
        [⟨"#8b5cf6", 5, ["a.ts"], mkRat 1 2, mkRat 1 2, BrandColorType.neutral⟩] ∧
    brandCalculateConfidence
        [⟨"#8b5cf6", 5, ["a.ts"], mkRat 1 2, mkRat 1 2, BrandColorType.neutral⟩] ≤ 1 :=
  confidence_bounds.2.2
    [⟨"#8b5cf6", 5, ["a.ts"], mkRat 1 2, mkRat 1 2, BrandColorType.neutral⟩]
    (by intro c hc; rw [List.mem_singleton.mp hc]; exact ⟨by decide, by decide⟩)

/-! ### Smart theme recommender (`src/adaptive/smart-recommender.ts`) and
claim C8

`chroma(color).get('hsl.h') || 0` and `chroma.contrast` are the external
colour collaborators `hue` and `contrast`. The recommender's
`brandProfile`/`archetype`/overall-reasoning echo fields are not modelled;
claim C8 concerns the per-preset scores and the ranking. -/

structure ThemeScore where
  themeId : String
  themeName : String
  score : ℚ
  reasoning : List String
  brandMatch : ℚ
  archetypeMatch : ℚ
  accessibilityScore : ℚ

/-- `scoreBrandCompatibility(theme, brandProfile)`. -/
def scoreBrandCompatibility (hue : String → ℚ) (theme : ThemePreset)
    (profile : BrandColorProfile) : ℚ :=
  match profile.primary with
  | none => 0.7
  | some p =>
    let primaryHue := hue p.color
    if theme.id = "v0" then
      if p.saturation < 0.3 then 0.9 else 0.4
    else if theme.id = "linear" then
      if 240 ≤ primaryHue ∧ primaryHue ≤ 300 then 0.95
      else if 200 ≤ primaryHue ∧ primaryHue ≤ 340 then 0.8
      else 0.6
    else if theme.id = "supabase" then
      if 120 ≤ primaryHue ∧ primaryHue ≤ 160 then 0.95
      else if 100 ≤ primaryHue ∧ primaryHue ≤ 180 then 0.8
      else 0.5
    else if theme.id = "openai" then
      if 180 ≤ primaryHue ∧ primaryHue ≤ 240 then 0.95
      else if 160 ≤ primaryHue ∧ primaryHue ≤ 260 then 0.8
      else 0.7
    else 0.5

/-- The theme × archetype compatibility matrix. -/
def compatibilityMatrix : List (String × List (String × ℚ)) :=
  [("v0", [("corporate", 0.95), ("modern", 0.8), ("developer", 0.6), ("creative", 0.3)]),
   ("linear", [("corporate", 0.7), ("modern", 0.95), ("developer", 0.9), ("creative", 0.8)]),
   ("supabase", [("corporate", 0.8), ("modern", 0.85), ("developer", 0.9), ("creative", 0.7)]),
   ("openai", [("corporate", 0.75), ("modern", 0.9), ("developer", 0.95), ("creative", 0.6)])]

/-- `compatibility[theme.id]?.[archetype] || 0.5`. No matrix cell is 0, so
the falsy fallback fires exactly on missing keys. -/
def scoreArchetypeCompatibility (theme : ThemePreset) (archetype : String) : ℚ :=
  match alookup theme.id compatibilityMatrix with
  | none => 0.5
  | some row =>
    match alookup archetype row with
    | none => 0.5
    | some v => v

/-- `scoreAccessibility(theme)`: the `catch` branch guards chroma parse
failures; `contrast` is total here, so only the main path is modelled. -/
def scoreAccessibility (contrast : ContrastFn) (theme : ThemePreset) : ℚ :=
  (min (contrast theme.light.background theme.light.foreground / 4.5) 1 +
    min (contrast theme.dark.background theme.dark.foreground / 4.5) 1) / 2

/-- `generateReasoningForTheme`. -/
def generateReasoningForTheme (brandMatch archetypeMatch accessibilityScore : ℚ) :
    List String :=
  [(if 0.8 < brandMatch then "Excellent brand color preservation"
    else if 0.6 < brandMatch then "Good brand color compatibility"
    else "Limited brand color support"),
   (if 0.8 < archetypeMatch then "Perfect archetype alignment"
    else if 0.6 < archetypeMatch then "Good design pattern fit"
    else "Moderate archetype compatibility"),
   (if 0.9 < accessibilityScore then "Excellent accessibility (WCAG AA+)"
    else if 0.7 < accessibilityScore then "Good accessibility compliance"
    else "Meets basic accessibility standards")]

/-- `scoreTheme(theme, brandProfile, archetype)`. -/
def scoreTheme (hue : String → ℚ) (contrast : ContrastFn) (theme : ThemePreset)
    (profile : BrandColorProfile) (archetype : String) : ThemeScore :=
  let brandMatch := scoreBrandCompatibility hue theme profile
  let archetypeMatch := scoreArchetypeCompatibility theme archetype
  let accessibilityScore := scoreAccessibility contrast theme
  { themeId := theme.id, themeName := theme.name,
    score := brandMatch * 0.4 + archetypeMatch * 0.35 + accessibilityScore * 0.25,
    reasoning := generateReasoningForTheme brandMatch archetypeMatch accessibilityScore,
    brandMatch := brandMatch, archetypeMatch := archetypeMatch,
    accessibilityScore := accessibilityScore }

/-- `scores.sort((a, b) => b.score - a.score)`: descending, stable
(`Array.prototype.sort` is stable; insertion sort is a stable model). -/
def sortScores (l : List ThemeScore) : List ThemeScore :=
  List.insertionSort (fun a b => b.score ≤ a.score) l

structure SmartRecommendationModel where
  recommended : Option ThemeScore
  alternatives : List ThemeScore

/-- `recommendTheme` over an explicit catalog: `scores[0]` is recommended
(`none` on an empty catalog, where the source would crash downstream) and
`scores.slice(1, 4)` are the alternatives. -/
def recommendThemeOn (hue : String → ℚ) (contrast : ContrastFn)
    (catalog : List ThemePreset) (profile : BrandColorProfile) (archetype : String) :
    SmartRecommendationModel :=
  let scores := sortScores (catalog.map (fun t => scoreTheme hue contrast t profile archetype))
  { recommended := scores.head?, alternatives := (scores.drop 1).take 3 }

instance : IsTotal ThemeScore (fun a b => b.score ≤ a.score) :=
  ⟨fun a b => le_total b.score a.score⟩

instance : IsTrans ThemeScore (fun a b => b.score ≤ a.score) :=
  ⟨fun _ _ _ h1 h2 => le_trans h2 h1⟩

/-- C8: every preset's score is
`0.4·brandMatch + 0.35·archetypeMatch + 0.25·accessibilityScore`;
`brandMatch` is 0.7 with no primary brand colour; `archetypeMatch` defaults
to 0.5 off the compatibility matrix; `accessibilityScore` averages the two
mode contrasts divided by 4.5 and capped at 1; and the result is sorted
descending by score with the head recommended and the next three as
alternatives. -/
theorem recommender_scoring (hue : String → ℚ) (contrast : ContrastFn)
    (profile : BrandColorProfile) (archetype : String) (catalog : List ThemePreset) :
    (∀ th : ThemePreset,
      (scoreTheme hue contrast th profile archetype).score =
        0.4 * scoreBrandCompatibility hue th profile +
        0.35 * scoreArchetypeCompatibility th archetype +
        0.25 * scoreAccessibility contrast th) ∧
    (profile.primary = none → ∀ th : ThemePreset,
      scoreBrandCompatibility hue th profile = 0.7) ∧
    (∀ th : ThemePreset, th.id ∉ ["v0", "linear", "supabase", "openai"] →
      scoreArchetypeCompatibility th archetype = 0.5) ∧
    (archetype ∉ ["corporate", "modern", "developer", "creative"] →
      ∀ th : ThemePreset, scoreArchetypeCompatibility th archetype = 0.5) ∧
    (∀ th : ThemePreset, scoreAccessibility contrast th =
      (min (contrast th.light.background th.light.foreground / 4.5) 1 +
        min (contrast th.dark.background th.dark.foreground / 4.5) 1) / 2) ∧
    List.Sorted (fun a b : ThemeScore => b.score ≤ a.score)
      (sortScores (catalog.map (fun t => scoreTheme hue contrast t profile archetype))) ∧
    (sortScores (catalog.map (fun t => scoreTheme hue contrast t profile archetype))).Perm
      (catalog.map (fun t => scoreTheme hue contrast t profile archetype)) ∧
    (recommendThemeOn hue contrast catalog profile archetype).recommended =
      (sortScores (catalog.map (fun t => scoreTheme hue contrast t profile archetype))).head? ∧
    (recommendThemeOn hue contrast catalog profile archetype).alternatives =
      ((sortScores (catalog.map
        (fun t => scoreTheme hue contrast t profile archetype))).drop 1).take 3 := by
  refine ⟨?_, ?_, ?_, ?_, fun _ => rfl, ?_, ?_, rfl, rfl⟩
  · intro th
    show scoreBrandCompatibility hue th profile * 0.4 +
        scoreArchetypeCompatibility th archetype * 0.35 +
        scoreAccessibility contrast th * 0.25 = _
    ring
  · intro hnone th
    unfold scoreBrandCompatibility
    rw [hnone]
  · intro th hth
    have h1 : th.id ≠ "v0" := fun h => hth (by simp [h])
    have h2 : th.id ≠ "linear" := fun h => hth (by simp [h])
    have h3 : th.id ≠ "supabase" := fun h => hth (by simp [h])
    have h4 : th.id ≠ "openai" := fun h => hth (by simp [h])
    unfold scoreArchetypeCompatibility compatibilityMatrix
    simp [alookup, h1, h2, h3, h4]
  · intro harch th
    have h1 : archetype ≠ "corporate" := fun h => harch (by simp [h])
    have h2 : archetype ≠ "modern" := fun h => harch (by simp [h])
    have h3 : archetype ≠ "developer" := fun h => harch (by simp [h])
    have h4 : archetype ≠ "creative" := fun h => harch (by simp [h])
    cases hcase : alookup th.id compatibilityMatrix with
    | none =>
      unfold scoreArchetypeCompatibility
      rw [hcase]
    | some row =>
      have hmem := alookup_mem hcase
      unfold scoreArchetypeCompatibility
      rw [hcase]
      simp only [compatibilityMatrix, List.mem_cons, List.not_mem_nil, or_false] at hmem
      rcases hmem with h | h | h | h <;>
        · have hrow := congrArg Prod.snd h
          simp only at hrow
          rw [hrow]
          simp [alookup, h1, h2, h3, h4]
  · exact List.sorted_insertionSort _ _
  · exact List.perm_insertionSort _ _

theorem recommender_scoring_witness :
    scoreBrandCompatibility (fun _ => 0) vercelPreset
      ⟨none, none, none, [], Temperature.neutral, 0⟩ = 0.7 ∧
    scoreArchetypeCompatibility customPreset "modern" = 0.5 :=
  ⟨(recommender_scoring (fun _ => 0) (fun _ _ => 0)
      ⟨none, none, none, [], Temperature.neutral, 0⟩ "modern" []).2.1 rfl vercelPreset,
   (recommender_scoring (fun _ => 0) (fun _ _ => 0)
      ⟨none, none, none, [], Temperature.neutral, 0⟩ "modern" []).2.2.1 customPreset
      (by decide)⟩

/-! ### Batch transformation (`src/core/transformer.ts`) and claim C9

`transformFile` performs file I/O and AST parsing, so it is modelled as a
fallible per-file function `tf`; a thrown exception is the `Except.error`
case, which `transformFiles` catches per file. -/

structure ComponentFile where
  path : String
  content : Option String
deriving DecidableEq

structure TransformationResult where
  filePath : String
  success : Bool
  error : Option String
  originalContent : String
  transformedContent : String
  changesCount : ℕ
  transformedClasses : List String
deriving DecidableEq

structure TransformationSummary where
  totalFiles : ℕ
  successfulTransformations : ℕ
  failedTransformations : ℕ
  totalChanges : ℕ
  results : List TransformationResult

/-- The failure record `transformFiles` pushes when `transformFile` throws:
`file.content || ''` for both content fields, zero changes. -/
def failureResult (file : ComponentFile) (e : String) : TransformationResult :=
  { filePath := file.path, success := false, error := some e,
    originalContent := file.content.getD "", transformedContent := file.content.getD "",
    changesCount := 0, transformedClasses := [] }

/-- One iteration of the `for (const file of files)` loop with its
`try`/`catch`. -/
def transformFileStep (tf : ComponentFile → Except String TransformationResult)
    (file : ComponentFile) : TransformationResult :=
  match tf file with
  | .ok r => r
  | .error e => failureResult file e

/-- `transformFiles(files, themeId?)`. -/
def transformFiles (tf : ComponentFile → Except String TransformationResult)
    (files : List ComponentFile) : TransformationSummary :=
  let results := files.map (transformFileStep tf)
  { totalFiles := files.length,
    successfulTransformations := (results.filter (fun r => r.success)).length,
    failedTransformations := (results.filter (fun r => !r.success)).length,
    totalChanges := results.foldl (fun s r => s + r.changesCount) 0,
    results := results }

theorem foldl_add_changes (l : List TransformationResult) :
    ∀ (a : ℕ), l.foldl (fun s r => s + r.changesCount) a =
      a + (l.map (fun r => r.changesCount)).sum := by
  induction l with
  | nil => intro a; simp
  | cons r rest ih =>
    intro a
    simp only [List.foldl_cons, List.map_cons, List.sum_cons, ih]
    omega

theorem filter_partition_length (l : List TransformationResult) :
    (l.filter (fun r => r.success)).length + (l.filter (fun r => !r.success)).length =
      l.length := by
  induction l with
  | nil => rfl
  | cons r rest ih =>
    by_cases hr : r.success = true
    · simp [List.filter_cons, hr]
      omega
    · have hr2 : r.success = false := by simpa using hr
      simp [List.filter_cons, hr2]
      omega

/-- C9: batch transformation has partial-failure semantics — one result per
input file in order, success and failure counts partition the file count,
total changes is the sum of per-file change counts, and a file whose
transformation throws yields a failure record (success false, zero changes,
content returned unchanged) without disturbing the other files' results. -/
theorem transformFiles_partial_failure
    (tf : ComponentFile → Except String TransformationResult)
    (files : List ComponentFile) :
    (transformFiles tf files).results.length = files.length ∧
    (transformFiles tf files).totalFiles = files.length ∧
    (transformFiles tf files).successfulTransformations +
      (transformFiles tf files).failedTransformations =
      (transformFiles tf files).totalFiles ∧
    (transformFiles tf files).totalChanges =
      ((transformFiles tf files).results.map (fun r => r.changesCount)).sum ∧
    (∀ (i : ℕ) (hi : i < files.length),
      (∀ e, tf (files.get ⟨i, hi⟩) = .error e →
        (transformFiles tf files).results.get ⟨i, by simp [transformFiles]; exact hi⟩ =
          failureResult (files.get ⟨i, hi⟩) e) ∧
      (∀ r, tf (files.get ⟨i, hi⟩) = .ok r →
        (transformFiles tf files).results.get ⟨i, by simp [transformFiles]; exact hi⟩ = r)) := by
  refine ⟨by simp [transformFiles], rfl, ?_, ?_, ?_⟩
  · show ((files.map (transformFileStep tf)).filter (fun r => r.success)).length +
        ((files.map (transformFileStep tf)).filter (fun r => !r.success)).length =
        files.length
    rw [filter_partition_length, List.length_map]
  · show (files.map (transformFileStep tf)).foldl (fun s r => s + r.changesCount) 0 =
        ((files.map (transformFileStep tf)).map (fun r => r.changesCount)).sum
    rw [foldl_add_changes]
    omega
  · intro i hi
    constructor
    · intro e he
      show (files.map (transformFileStep tf)).get _ = _
      rw [List.get_map]
      unfold transformFileStep
      rw [he]
    · intro r hr
      show (files.map (transformFileStep tf)).get _ = _
      rw [List.get_map]
      unfold transformFileStep
      rw [hr]

def c9Transform (f : ComponentFile) : Except String TransformationResult :=
  if f.path = "bad.tsx" then Except.error "Unknown error"
  else Except.ok
    { filePath := f.path, success := true, error := none,
      originalContent := f.content.getD "", transformedContent := f.content.getD "",
      changesCount := 1, transformedClasses := ["bg-white"] }

theorem transformFiles_partial_failure_witness :
    (transformFiles c9Transform
        [⟨"bad.tsx", some "x"⟩, ⟨"ok.tsx", some "y"⟩]).results.get ⟨0, by decide⟩ =
      failureResult ⟨"bad.tsx", some "x"⟩ "Unknown error" :=
  ((transformFiles_partial_failure c9Transform
      [⟨"bad.tsx", some "x"⟩, ⟨"ok.tsx", some "y"⟩]).2.2.2.2 0 (by decide)).1
    "Unknown error" rfl

/-! ### Content-level class-attribute rewriting and claim C10

`transformHtmlContent` (and the generic fallback) applies a class-attribute
regex to file content; the external parser contract of §1 reduces this to
the list of class-attribute value spans interleaved with other text, which
is the segment list here. Each match is either skipped whole by
`shouldTransform = themeId || !hasExistingDarkVariant(classString)` or
rewritten, with the original value pushed to `transformedClasses` only when
the rewrite changed it. -/

inductive ContentSegment
  | text (s : String)
  | classAttr (s : String)
deriving DecidableEq

/-- The regex-callback of `transformHtmlContent` on one match, plus
pass-through for non-attribute text. -/
def transformSegment (themeId : Option String) :
    ContentSegment → ContentSegment × List String
  | .text s => (.text s, [])
  | .classAttr s =>
    if themeId.isSome || !(hasExistingDarkVariant s) then
      if transformTailwindClasses s themeId ≠ s then
        (.classAttr (transformTailwindClasses s themeId), [s])
      else (.classAttr s, [])
    else (.classAttr s, [])

/-- `transformHtmlContent(content, themeId?)` over the segment list:
rewritten content plus the accumulated `transformedClasses`. -/
def transformHtmlContent (themeId : Option String) (segs : List ContentSegment) :
    List ContentSegment × List String :=
  (segs.map (fun sg => (transformSegment themeId sg).1),
   segs.foldr (fun sg acc => (transformSegment themeId sg).2 ++ acc) [])

theorem transformSegment_second (sg : ContentSegment) :
    transformSegment none (transformSegment none sg).1 =
      ((transformSegment none sg).1, []) := by
  match sg with
  | .text s => rfl
  | .classAttr s =>
    by_cases hd : hasExistingDarkVariant s = true
    · simp [transformSegment, hd]
    · have hd2 : hasExistingDarkVariant s = false := by simpa using hd
      by_cases ht : transformTailwindClasses s none = s
      · simp [transformSegment, hd2, ht]
      · by_cases hdt : hasExistingDarkVariant (transformTailwindClasses s none) = true
        · simp [transformSegment, hd2, ht, hdt]
        · have hdt2 : hasExistingDarkVariant (transformTailwindClasses s none) = false := by
            simpa using hdt
          have hTT := transform_none_second_pass s hdt2
          simp [transformSegment, hd2, ht, hdt2, hTT]

theorem foldr_append_nil {α β : Type} (l : List α) (g : α → List β)
    (h : ∀ x ∈ l, g x = []) : l.foldr (fun x acc => g x ++ acc) [] = ([] : List β) := by
  induction l with
  | nil => rfl
  | cons x rest ih =>
    simp only [List.foldr_cons, h x (by simp), List.nil_append]
    exact ih (fun y hy => h y (by simp [hy]))

/-- C10: at the file-content level with no themeId, any class-attribute
value containing `'dark:'` anywhere is skipped whole — returned
character-for-character unchanged and not counted among the transformed
classes — and this guard makes a second content-level pass produce the same
content with no recorded transformations. -/
theorem contentlevel_dark_guard (segs : List ContentSegment) :
    (∀ s : String, hasExistingDarkVariant s = true →
      transformSegment none (ContentSegment.classAttr s) =
        (ContentSegment.classAttr s, [])) ∧
    transformHtmlContent none (transformHtmlContent none segs).1 =
      ((transformHtmlContent none segs).1, []) := by
  constructor
  · intro s hs
    simp [transformSegment, hs]
  · unfold transformHtmlContent
    simp only [List.map_map, List.foldr]
    refine Prod.ext ?_ ?_
    · show (segs.map ((fun sg => (transformSegment none sg).1) ∘
          (fun sg => (transformSegment none sg).1))) = _
      apply List.map_congr_left
      intro sg _
      show (transformSegment none ((transformSegment none sg).1)).1 =
        (transformSegment none sg).1
      rw [transformSegment_second]
    · show (segs.map (fun sg => (transformSegment none sg).1)).foldr
          (fun sg acc => (transformSegment none sg).2 ++ acc) [] = []
      rw [List.foldr_map]
      apply foldr_append_nil
      intro sg _
      show (transformSegment none ((transformSegment none sg).1)).2 = []
      rw [transformSegment_second]

theorem contentlevel_dark_guard_witness :
    transformSegment none (ContentSegment.classAttr "bg-white dark:bg-gray-900") =
      (ContentSegment.classAttr "bg-white dark:bg-gray-900", []) :=
  (contentlevel_dark_guard []).1 "bg-white dark:bg-gray-900" (by decide)
